import Mathlib

/-!
# Verification of the healthai structured-interview engine

Shallow embedding of the core of `src/app/intelligent_conversation_engine.py`
(class `IntelligentConversationEngine`): the patient record (an untyped nested
Python dict), the question catalog, the precondition resolver
`_get_next_valid_question_index`, the trimester helper `_get_pregnancy_trimester`,
the field-path accessors `_save_to_field` / `_get_field_value`, the visit
archiving `_archive_current_visit` / `_handle_completed_phase` /
`_start_new_visit`, and the assessment phase handler `_handle_assessment_phase`.

Python values are modelled by the inductive `PyVal` (no float values are modelled:
none of the verified paths stores floats).  Python dicts are association lists
with first-match lookup and in-place update, which matches Python dict semantics
for dicts with unique keys (every dict this program builds).  Where Python would
raise (e.g. `.get` on a non-dict, `int()` of a dict outside a `try`), the
embedding totalizes in the way noted at each definition; every totalization
agrees with Python on all records that respect the record schema of
`_initialize_patient_data`, and every concrete counterexample below uses only
schema-shaped records on which the embedding and Python agree exactly.
-/

namespace HealthAI

/-- A Python runtime value, as stored in the patient-record dict. -/
inductive PyVal where
  | none : PyVal
  | bool : Bool → PyVal
  | int : Int → PyVal
  | str : String → PyVal
  | list : List PyVal → PyVal
  | dict : List (String × PyVal) → PyVal

/-- A Python dict: association list, first match wins on lookup. -/
abbrev PyDict := List (String × PyVal)

/-- Python `d.get(k, default)` — first matching key, else the default. -/
def dGet (d : PyDict) (k : String) (dflt : PyVal) : PyVal :=
  match d with
  | [] => dflt
  | (k', v) :: rest => if k' = k then v else dGet rest k dflt

/-- Python `k in d` — Python dict membership. -/
def dMem (d : PyDict) (k : String) : Bool :=
  match d with
  | [] => false
  | (k', _) :: rest => if k' = k then true else dMem rest k

/-- Python `d[k] = v` — in-place update: replaces the first binding of `k`, else appends
(the insertion-order behaviour of a Python dict). -/
def dSet (d : PyDict) (k : String) (v : PyVal) : PyDict :=
  match d with
  | [] => [(k, v)]
  | (k', v') :: rest => if k' = k then (k, v) :: rest else (k', v') :: dSet rest k v

/-- Python `d.update(other)` — writes each binding of `other`, in order. -/
def dUpdate (d : PyDict) (other : PyDict) : PyDict :=
  other.foldl (fun acc e => dSet acc e.1 e.2) d

/-- View a value as a dict.  Python raises `AttributeError`/`TypeError` when dict
operations hit a non-dict; the embedding reads an empty dict instead.  On records
where the accessed slot is a dict or absent (all schema-shaped records) this
agrees with Python. -/
def asDict : PyVal → PyDict
  | .dict d => d
  | _ => []

/-- View a value as a list, treating any non-list as `[]`: this is exactly the
`if not isinstance(visit_history, list): visit_history = []` normalization the
source applies before every use of a stored list. -/
def asList : PyVal → List PyVal
  | .list l => l
  | _ => []

/-- Python truthiness (`bool(v)`). -/
def truthy : PyVal → Bool
  | .none => false
  | .bool b => b
  | .int n => n ≠ 0
  | .str s => s ≠ ""
  | .list l => ¬ l.isEmpty
  | .dict d => ¬ d.isEmpty

/-- Python `==` restricted to the comparisons the verified code performs.
Scalars compare as in Python (including `True == 1`); two composite values
compare as `false` here, although Python compares them structurally — the
verified code only ever compares a value against a string literal or an int
(`visit_number`), where the two semantics agree. -/
def pyEq : PyVal → PyVal → Bool
  | .none, .none => true
  | .bool a, .bool b => a == b
  | .bool a, .int n => (if a then (1 : Int) else 0) == n
  | .int n, .bool a => n == (if a then (1 : Int) else 0)
  | .int a, .int b => a == b
  | .str a, .str b => a == b
  | _, _ => false

/-- Python `str(v)` for the scalar constructors.  For composite values Python prints a
`repr`; the embedding summarizes it as a fixed non-empty non-digit marker, which
is interchangeable with the true `repr` for the only uses made of `str` on
composites here (`isdigit()` and emptiness tests). -/
def pyStr : PyVal → String
  | .none => "None"
  | .bool true => "True"
  | .bool false => "False"
  | .int n => toString n
  | .str s => s
  | .list _ => "[repr]"
  | .dict _ => "\x7brepr\x7d"

/-- Python `s.isdigit()` for ASCII digits. -/
def pyIsdigit (s : String) : Bool :=
  ¬ s.data.isEmpty && s.data.all (fun c => '0' ≤ c && c ≤ '9')

/-- Digits to the number they denote (only applied under `pyIsdigit`). -/
def digitsVal (l : List Char) : Nat :=
  l.foldl (fun acc c => acc * 10 + (c.toNat - 48)) 0

/-- Python `int(s)` for an all-digit string (the only way the source calls `int` on a
string, always guarded by `isdigit`). -/
def pyParseNat (s : String) : Int :=
  Int.ofNat (digitsVal s.data)

/-- The idiom `int(v) if str(v).isdigit() else 0` used for `pregnancy_number`. -/
def intViaDigit (v : PyVal) : Int :=
  if pyIsdigit (pyStr v) then pyParseNat (pyStr v) else 0

/-- The defensive int coercion used for `number_of_children` and
`pregnancy_month`: strings via `isdigit`, `None` to 0, `int()` otherwise with
`ValueError`/`TypeError` caught to 0 (so composites coerce to 0; `int(bool)` is
0 or 1 as in Python). -/
def pyCoerceInt : PyVal → Int
  | .str s => if pyIsdigit s then pyParseNat s else 0
  | .none => 0
  | .int n => n
  | .bool b => if b then 1 else 0
  | .list _ => 0
  | .dict _ => 0

/-- ASCII lowercase of one char (`str.lower()` on the ASCII strings compared
here). -/
def lowerChar (c : Char) : Char :=
  if 'A' ≤ c && c ≤ 'Z' then Char.ofNat (c.toNat + 32) else c

/-- Python `s.lower()`. -/
def pyLower (s : String) : String :=
  String.mk (s.data.map lowerChar)

/-- Python `str.strip` whitespace class (ASCII part). -/
def isSpaceChar (c : Char) : Bool :=
  c == ' ' || c == '\t' || c == '\n' || c == '\r'

/-- Python `s.strip()`. -/
def pyStrip (s : String) : String :=
  String.mk (((s.data.dropWhile isSpaceChar).reverse.dropWhile isSpaceChar).reverse)

/-- Does `p` occur at the head of `s`? (helper for substring containment). -/
def leadsList : List Char → List Char → Bool
  | [], _ => true
  | _ :: _, [] => false
  | a :: ps, b :: ss => a == b && leadsList ps ss

/-- Does `p` occur anywhere in `s`? (helper for substring containment). -/
def containsList (p : List Char) : List Char → Bool
  | [] => leadsList p []
  | c :: rest => leadsList p (c :: rest) || containsList p rest

/-- Python `pat in s` substring containment. -/
def strContains (s pat : String) : Bool :=
  containsList pat.data s.data

/-- The idiom `str(v).strip() if v is not None else ""`. -/
def strIfNotNone (v : PyVal) : String :=
  match v with
  | .none => ""
  | v => pyStrip (pyStr v)

/-- The idiom `str(v).strip().lower() if v is not None else ""`. -/
def strStripLower (v : PyVal) : String :=
  match v with
  | .none => ""
  | v => pyLower (pyStrip (pyStr v))

/-! ## Dict lemmas -/

theorem dGet_dSet_same (d : PyDict) (k : String) (v dflt : PyVal) :
    dGet (dSet d k v) k dflt = v := by
  induction d with
  | nil => simp [dSet, dGet]
  | cons e rest ih =>
    by_cases h : e.1 = k
    · simp [dSet, dGet, h]
    · simp [dSet, dGet, h, ih]

theorem dGet_dSet_ne (d : PyDict) (k k' : String) (v dflt : PyVal)
    (h : k ≠ k') : dGet (dSet d k v) k' dflt = dGet d k' dflt := by
  induction d with
  | nil => simp [dSet, dGet, h]
  | cons e rest ih =>
    by_cases he : e.1 = k
    · simp [dSet, dGet, he, h]
    · simp only [dSet, dGet, if_neg he]
      by_cases he' : e.1 = k'
      · simp [he']
      · simp [he', ih]

theorem dMem_dSet_same (d : PyDict) (k : String) (v : PyVal) :
    dMem (dSet d k v) k = true := by
  induction d with
  | nil => simp [dSet, dMem]
  | cons e rest ih =>
    by_cases h : e.1 = k
    · simp [dSet, dMem, h]
    · simp [dSet, dMem, h, ih]

/-- A present binding read off with one default is read the same with any
other default. -/
theorem dGet_irrel_of_ne_dflt (d : PyDict) (k : String) (v dflt dflt' : PyVal)
    (hget : dGet d k dflt = v) (hne : v ≠ dflt) :
    dGet d k dflt' = v := by
  induction d with
  | nil => exact absurd hget.symm (by simpa using hne.symm ∘ Eq.symm)
  | cons e rest ih =>
    by_cases h : e.1 = k
    · simpa [dGet, h] using by simpa [dGet, h] using hget
    · simp only [dGet, if_neg h] at hget ⊢
      exact ih hget

/-- Re-writing a key with the value it already holds is a no-op (used for the
idempotent flag writes in the completed-phase handler). -/
theorem dSet_self (d : PyDict) (k : String) (v : PyVal)
    (hmem : dMem d k = true) (hget : dGet d k PyVal.none = v) :
    dSet d k v = d := by
  induction d with
  | nil => simp [dMem] at hmem
  | cons e rest ih =>
    by_cases h : e.1 = k
    · cases e with
      | mk k0 v0 =>
        simp only at h
        subst h
        simp [dGet] at hget
        simp [dSet, hget]
    · simp only [dMem, if_neg h] at hmem
      simp only [dGet, if_neg h] at hget
      simp [dSet, h, ih hmem hget]

/-! ## Question catalog

`_initialize_questions` (source lines 244–321).  Only the keys the resolver
reads are kept: `id` and the target `field` path, plus the `condition` tag
(which `_get_next_valid_question_index` loads but never consults — every skip
rule there is keyed on the integer `id`).  The Urdu prompt text is not needed
by any verified function. -/

structure Question where
  id : Nat
  field : String
  tag : String
  deriving Repr

/-- Placeholder entry for out-of-range indexing (never reached under the
`i < questions.length` guard of the scan). -/
def qDefault : Question := ⟨0, "", ""⟩

/-- The static catalog, in source order: ids 4–9, 10–14, 15–24, 25–34, 35–43,
44–54 (51 questions; ids 1–3 are collected during onboarding). -/
def questions : List Question := [
  ⟨4, "demographics.marriage_info", ""⟩,
  ⟨5, "demographics.pregnancy_number", ""⟩,
  ⟨6, "demographics.miscarriages_deaths", "if_2nd_or_more_pregnancy"⟩,
  ⟨7, "demographics.last_menstrual_period", ""⟩,
  ⟨8, "demographics.regular_periods", "if_lmp_not_remembered"⟩,
  ⟨9, "current_pregnancy.pregnancy_month", ""⟩,
  ⟨10, "current_pregnancy.conception_method", ""⟩,
  ⟨11, "current_pregnancy.discovery_method", ""⟩,
  ⟨12, "current_pregnancy.early_ultrasound", ""⟩,
  ⟨13, "current_pregnancy.folic_acid", ""⟩,
  ⟨14, "current_pregnancy.early_symptoms", ""⟩,
  ⟨15, "current_pregnancy.fetal_movement", ""⟩,
  ⟨16, "current_pregnancy.anatomy_scan", ""⟩,
  ⟨17, "current_pregnancy.regular_checkup", ""⟩,
  ⟨18, "current_pregnancy.blood_urine_tests", ""⟩,
  ⟨19, "current_pregnancy.hb_level_symptoms", "if_blood_test_answered"⟩,
  ⟨20, "current_pregnancy.sugar_bp_tests", ""⟩,
  ⟨21, "current_pregnancy.sugar_bp_medication", "if_sugar_bp_issue"⟩,
  ⟨22, "current_pregnancy.supplements", ""⟩,
  ⟨23, "current_pregnancy.bleeding_water_leakage", ""⟩,
  ⟨24, "current_pregnancy.recent_scan", "if_third_trimester"⟩,
  ⟨25, "obstetric_history.single_child.age", ""⟩,
  ⟨26, "obstetric_history.single_child.gender", ""⟩,
  ⟨27, "obstetric_history.single_child.full_term", ""⟩,
  ⟨28, "obstetric_history.single_child.delivery_method", ""⟩,
  ⟨29, "obstetric_history.single_child.normal_delivery_details", "if_normal_delivery"⟩,
  ⟨30, "obstetric_history.single_child.operation_reason", "if_operation"⟩,
  ⟨31, "obstetric_history.single_child.delivery_location", ""⟩,
  ⟨32, "obstetric_history.single_child.post_delivery_complications", ""⟩,
  ⟨33, "obstetric_history.single_child.current_status", ""⟩,
  ⟨34, "obstetric_history.single_child.pregnancy_complications", ""⟩,
  ⟨35, "obstetric_history.multiple_children.children_info", ""⟩,
  ⟨36, "obstetric_history.multiple_children.all_full_term", ""⟩,
  ⟨37, "obstetric_history.multiple_children.delivery_methods", ""⟩,
  ⟨38, "obstetric_history.multiple_children.delivery_locations", ""⟩,
  ⟨39, "obstetric_history.multiple_children.normal_delivery_details", "if_any_normal_delivery"⟩,
  ⟨40, "obstetric_history.multiple_children.operation_reasons", "if_any_operation"⟩,
  ⟨41, "obstetric_history.multiple_children.post_delivery_complications", ""⟩,
  ⟨42, "obstetric_history.multiple_children.current_status", ""⟩,
  ⟨43, "obstetric_history.multiple_children.pregnancy_complications", ""⟩,
  ⟨44, "gynecological_history.contraception", ""⟩,
  ⟨45, "gynecological_history.pap_smear", ""⟩,
  ⟨46, "past_medical_history.current_medications", ""⟩,
  ⟨47, "past_medical_history.previous_conditions", ""⟩,
  ⟨48, "surgical_history.operations", ""⟩,
  ⟨49, "family_history.medical_conditions", ""⟩,
  ⟨50, "family_history.twins_history", "if_twins"⟩,
  ⟨51, "personal_history.allergies", ""⟩,
  ⟨52, "personal_history.smoking_substance_use", ""⟩,
  ⟨53, "personal_history.domestic_violence", ""⟩,
  ⟨54, "personal_history.diet", ""⟩]

/-! ## Precondition resolver: `_get_next_valid_question_index`

Each local of the Python function (source lines 1750–1945) becomes a
definition parameterized by the incoming record `p`.  The source mutates
`demographics["number_of_children"]` mid-way (lines 1783–1791); locals the
source computes after that point read through `afterBackfill p`, exactly as the
source reads the mutated `patient_data`. -/

/-- Local `demographics = patient_data.get("demographics", \x7b\x7d)`. -/
def demographicsOf (p : PyDict) : PyDict :=
  asDict (dGet p "demographics" (PyVal.dict []))

/-- Local `current_pregnancy = patient_data.get("current_pregnancy", \x7b\x7d)`
(captured before the backfill write, which cannot touch it). -/
def currentPregnancyOf (p : PyDict) : PyDict :=
  asDict (dGet p "current_pregnancy" (PyVal.dict []))

/-- Local `pregnancy_number = demographics.get("pregnancy_number", "")`. -/
def pregnancyNumberOf (p : PyDict) : PyVal :=
  dGet (demographicsOf p) "pregnancy_number" (PyVal.str "")

/-- Local `first_pregnancy = demographics.get("first_pregnancy", False)`. -/
def firstPregnancyOf (p : PyDict) : PyVal :=
  dGet (demographicsOf p) "first_pregnancy" (PyVal.bool false)

/-- Local `is_2nd_or_more`: stays `False` unless `pregnancy_number` is truthy,
then `int(pregnancy_number) if str(...).isdigit() else 0` compared with `>= 2`. -/
def is2ndOrMoreOf (p : PyDict) : Bool :=
  truthy (pregnancyNumberOf p) && 2 ≤ intViaDigit (pregnancyNumberOf p)

/-- Local `number_of_children` right after the defensive coercion block
(source lines 1770–1779), before the backfill. -/
def rawChildrenOf (p : PyDict) : Int :=
  pyCoerceInt (dGet (demographicsOf p) "number_of_children" (PyVal.int 0))

/-- Guard of the backfill write (source lines 1783–1787): coerced
`number_of_children == 0`, `pregnancy_number` truthy and
`preg_num > 1`. -/
def backfillCond (p : PyDict) : Bool :=
  rawChildrenOf p == 0 && truthy (pregnancyNumberOf p)
    && 1 < intViaDigit (pregnancyNumberOf p)

/-- Local `number_of_children` after the backfill block: `preg_num - 1` when
the backfill fires, unchanged otherwise. -/
def numChildrenOf (p : PyDict) : Int :=
  if backfillCond p then intViaDigit (pregnancyNumberOf p) - 1 else rawChildrenOf p

/-- The record after the in-place write
`demographics["number_of_children"] = number_of_children` (source line 1788);
only fires under `backfillCond`, and only the `demographics` slot changes.
(When the `demographics` key is absent the Python write lands on a fresh local
a fresh dict and is invisible in the record; `backfillCond` is then `false` anyway,
because `pregnancy_number` reads as `""`.) -/
def afterBackfill (p : PyDict) : PyDict :=
  if backfillCond p then
    dSet p "demographics"
      (PyVal.dict (dSet (demographicsOf p) "number_of_children"
        (PyVal.int (numChildrenOf p))))
  else p

/-- Local `lmp_remembered` (source lines 1794–1797), read from the
(post-backfill) demographics: truthy stored flag, or a truthy
`last_menstrual_period` value. -/
def lmpRememberedOf (p : PyDict) : Bool :=
  truthy (dGet (demographicsOf (afterBackfill p)) "last_menstrual_period_remembered"
      (PyVal.bool false))
    || truthy (dGet (demographicsOf (afterBackfill p)) "last_menstrual_period" PyVal.none)

/-- Local `trimester = current_pregnancy.get("trimester", "unknown")` of
`_get_pregnancy_trimester` (source line 1725). -/
def storedTrimesterOf (p : PyDict) : PyVal :=
  dGet (asDict (dGet p "current_pregnancy" (PyVal.dict []))) "trimester"
    (PyVal.str "unknown")

/-- Local `pregnancy_month` of `_get_pregnancy_trimester` after its defensive
int coercion (source lines 1726–1737). -/
def pregnancyMonthOf (p : PyDict) : Int :=
  pyCoerceInt (dGet (asDict (dGet p "current_pregnancy" (PyVal.dict [])))
    "pregnancy_month" (PyVal.int 0))

/-- The helper `_get_pregnancy_trimester` (source lines 1722–1748): returns the cached
`trimester` value unless it equals `"unknown"` (its default for a missing key)
and a positive month is stored, in which case the trimester is derived from the
month; months outside 1–9 fall through to the cached value. -/
def getPregnancyTrimester (p : PyDict) : PyVal :=
  if pyEq (storedTrimesterOf p) (PyVal.str "unknown") = true ∧ 0 < pregnancyMonthOf p then
    if 1 ≤ pregnancyMonthOf p ∧ pregnancyMonthOf p ≤ 3 then PyVal.str "first"
    else if 4 ≤ pregnancyMonthOf p ∧ pregnancyMonthOf p ≤ 6 then PyVal.str "second"
    else if 7 ≤ pregnancyMonthOf p ∧ pregnancyMonthOf p ≤ 9 then PyVal.str "third"
    else storedTrimesterOf p
  else storedTrimesterOf p

/-- Local `trimester = self._get_pregnancy_trimester(patient_data)` (source
line 1800, after the backfill write). -/
def trimesterOf (p : PyDict) : PyVal :=
  getPregnancyTrimester (afterBackfill p)

/-- The helper `_has_twins` (source lines 1704–1720): truthy `current_pregnancy.has_twins`;
every other path of the method returns `False`. -/
def hasTwinsFn (p : PyDict) : Bool :=
  truthy (dGet (asDict (dGet p "current_pregnancy" (PyVal.dict []))) "has_twins"
    (PyVal.bool false))

/-- Local `has_twins = self._has_twins(patient_data)` (source line 1803). -/
def hasTwinsOf (p : PyDict) : Bool :=
  hasTwinsFn (afterBackfill p)

/-- Local `skip_obstetric_history = first_pregnancy or number_of_children == 0`. -/
def skipObstetricOf (p : PyDict) : Bool :=
  truthy (firstPregnancyOf p) || numChildrenOf p == 0

/-- Local `use_single_child_obstetric = number_of_children == 1`. -/
def useSingleChildOf (p : PyDict) : Bool :=
  numChildrenOf p == 1

/-- Local `use_multiple_children_obstetric = number_of_children >= 2`. -/
def useMultipleChildrenOf (p : PyDict) : Bool :=
  2 ≤ numChildrenOf p

/-- Local `blood_test_answer` (source line 1815), from the captured
`current_pregnancy`. -/
def bloodTestAnswerOf (p : PyDict) : String :=
  strIfNotNone (dGet (currentPregnancyOf p) "blood_urine_tests" (PyVal.str ""))

/-- Local `blood_test_answered` (source line 1816): non-empty and its
lowercase not in `["", "none", "false"]`. -/
def bloodTestAnsweredOf (p : PyDict) : Bool :=
  bloodTestAnswerOf p ≠ ""
    && ¬ ["", "none", "false"].contains (pyLower (bloodTestAnswerOf p))

/-- Skip test for question 21 (source lines 1877–1886): skip when
`sugar_bp_tests` reads as empty, or when none of the issue keywords occurs in
its lowercase. -/
def q21SkipOf (p : PyDict) : Bool :=
  let a := strIfNotNone (dGet (currentPregnancyOf p) "sugar_bp_tests" (PyVal.str ""))
  a == ""
    || ¬ (["masla", "problem", "tez", "high", "issue", "yes", "haan", "hua"].any
        (fun kw => strContains (pyLower a) kw))

/-- Loop-body read `patient_data["obstetric_history"]["single_child"]`
(post-backfill record). -/
def singleChildOf (p : PyDict) : PyDict :=
  asDict (dGet (asDict (dGet (afterBackfill p) "obstetric_history" (PyVal.dict [])))
    "single_child" (PyVal.dict []))

/-- Loop-body read `patient_data["obstetric_history"]["multiple_children"]`
(post-backfill record). -/
def multipleChildrenOf (p : PyDict) : PyDict :=
  asDict (dGet (asDict (dGet (afterBackfill p) "obstetric_history" (PyVal.dict [])))
    "multiple_children" (PyVal.dict []))

/-- Skip test for question 29 (source lines 1897–1904): skip unless a
`delivery_method` is recorded and mentions "normal". -/
def q29SkipOf (p : PyDict) : Bool :=
  let dm := strStripLower (dGet (singleChildOf p) "delivery_method" (PyVal.str ""))
  dm == "" || ¬ strContains dm "normal"

/-- Skip test for question 30 (source lines 1907–1918): skip unless a
`delivery_method` is recorded, does not mention "normal", and mentions
"operation" or "c-section". -/
def q30SkipOf (p : PyDict) : Bool :=
  let dm := strStripLower (dGet (singleChildOf p) "delivery_method" (PyVal.str ""))
  dm == "" || strContains dm "normal"
    || (¬ strContains dm "operation" && ¬ strContains dm "c-section")

/-- Skip test for question 39 (source lines 1921–1929): skip unless
`delivery_methods` is recorded and mentions "normal". -/
def q39SkipOf (p : PyDict) : Bool :=
  let dm := strStripLower (dGet (multipleChildrenOf p) "delivery_methods" (PyVal.str ""))
  dm == "" || ¬ strContains dm "normal"

/-- Skip test for question 40 (source lines 1932–1940): skip unless
`delivery_methods` is recorded and mentions "operation" or "c-section". -/
def q40SkipOf (p : PyDict) : Bool :=
  let dm := strStripLower (dGet (multipleChildrenOf p) "delivery_methods" (PyVal.str ""))
  dm == "" || (¬ strContains dm "operation" && ¬ strContains dm "c-section")

/-- The loop body of `_get_next_valid_question_index` (source lines 1822–1942):
`true` iff the candidate question survives every `continue`.  Conditions appear
in source order; conditions 3 keeps the source's `if skip_obstetric_history:
... else: ...` split. -/
def eligibleQuestion (p : PyDict) (q : Question) : Bool :=
  if q.id = 6 ∧ is2ndOrMoreOf p = false then false
  else if q.id = 8 ∧ lmpRememberedOf p = true then false
  else if skipObstetricOf p = true ∧ (25 ≤ q.id ∧ q.id ≤ 34 ∨ 35 ≤ q.id ∧ q.id ≤ 43) then
    false
  else if skipObstetricOf p = false ∧ useSingleChildOf p = true
      ∧ 35 ≤ q.id ∧ q.id ≤ 43 then false
  else if skipObstetricOf p = false ∧ useMultipleChildrenOf p = true
      ∧ 25 ≤ q.id ∧ q.id ≤ 34 then false
  else if pyEq (trimesterOf p) (PyVal.str "first") = true ∧ 15 ≤ q.id ∧ q.id ≤ 24 then
    false
  else if (pyEq (trimesterOf p) (PyVal.str "second") = true
      ∨ pyEq (trimesterOf p) (PyVal.str "third") = true) ∧ 10 ≤ q.id ∧ q.id ≤ 14 then
    false
  else if q.id = 19 ∧ bloodTestAnsweredOf p = false then false
  else if q.id = 21 ∧ q21SkipOf p = true then false
  else if q.id = 24 ∧ pyEq (trimesterOf p) (PyVal.str "third") = false then false
  else if q.id = 50 ∧ hasTwinsOf p = false then false
  else if q.id = 29 ∧ q29SkipOf p = true then false
  else if q.id = 30 ∧ q30SkipOf p = true then false
  else if q.id = 39 ∧ q39SkipOf p = true then false
  else if q.id = 40 ∧ q40SkipOf p = true then false
  else true

/-- The loop `for i in range(start_index, len(self.questions))` scanning the suffix of
the catalog that starts at absolute index `i`; returns the first index whose
question is eligible, else `len(self.questions)`. -/
def scanList (p : PyDict) : List Question → Nat → Nat
  | [], _ => questions.length
  | q :: rest, i => if eligibleQuestion p q then i else scanList p rest (i + 1)

/-- The resolver `_get_next_valid_question_index(start_index, patient_data)`: the returned
index together with the record as left behind (the `number_of_children`
backfill is its only write). -/
def getNextValidQuestionIndex (start : Nat) (p : PyDict) : Nat × PyDict :=
  (scanList p (questions.drop start) start, afterBackfill p)

/-! ## Invariance of the derived locals under the backfill write -/

theorem afterBackfill_dGet_ne (p : PyDict) (k : String) (dflt : PyVal)
    (h : k ≠ "demographics") :
    dGet (afterBackfill p) k dflt = dGet p k dflt := by
  unfold afterBackfill
  split
  · exact dGet_dSet_ne p "demographics" k _ dflt (Ne.symm h)
  · rfl

theorem demographicsOf_afterBackfill (p : PyDict) :
    demographicsOf (afterBackfill p) =
      if backfillCond p then
        dSet (demographicsOf p) "number_of_children" (PyVal.int (numChildrenOf p))
      else demographicsOf p := by
  unfold afterBackfill
  split <;> rename_i hb
  · show asDict (dGet (dSet p "demographics" _) "demographics" _) = _
    rw [dGet_dSet_same]
    rfl
  · rfl

theorem currentPregnancyOf_afterBackfill (p : PyDict) :
    currentPregnancyOf (afterBackfill p) = currentPregnancyOf p := by
  unfold currentPregnancyOf
  rw [afterBackfill_dGet_ne p _ _ (by decide)]

theorem pregnancyNumberOf_afterBackfill (p : PyDict) :
    pregnancyNumberOf (afterBackfill p) = pregnancyNumberOf p := by
  unfold pregnancyNumberOf
  rw [demographicsOf_afterBackfill]
  split
  · rw [dGet_dSet_ne _ _ _ _ _ (by decide)]
  · rfl

theorem firstPregnancyOf_afterBackfill (p : PyDict) :
    firstPregnancyOf (afterBackfill p) = firstPregnancyOf p := by
  unfold firstPregnancyOf
  rw [demographicsOf_afterBackfill]
  split
  · rw [dGet_dSet_ne _ _ _ _ _ (by decide)]
  · rfl

theorem is2ndOrMoreOf_afterBackfill (p : PyDict) :
    is2ndOrMoreOf (afterBackfill p) = is2ndOrMoreOf p := by
  unfold is2ndOrMoreOf
  rw [pregnancyNumberOf_afterBackfill]

theorem rawChildrenOf_afterBackfill (p : PyDict) :
    rawChildrenOf (afterBackfill p) = numChildrenOf p := by
  unfold rawChildrenOf
  rw [demographicsOf_afterBackfill]
  split <;> rename_i hb
  · rw [dGet_dSet_same]
    rfl
  · unfold numChildrenOf rawChildrenOf
    rw [if_neg hb]

theorem backfillCond_afterBackfill (p : PyDict) :
    backfillCond (afterBackfill p) = false := by
  by_cases hb : backfillCond p
  · have h1 : 1 < intViaDigit (pregnancyNumberOf p) := by
      have := hb
      unfold backfillCond at this
      simp only [Bool.and_eq_true, decide_eq_true_eq] at this
      exact this.2
    have hraw : rawChildrenOf (afterBackfill p) = intViaDigit (pregnancyNumberOf p) - 1 := by
      rw [rawChildrenOf_afterBackfill]
      unfold numChildrenOf
      rw [if_pos hb]
    unfold backfillCond
    rw [hraw]
    have : (intViaDigit (pregnancyNumberOf p) - 1 == (0 : Int)) = false := by
      simp only [beq_eq_false_iff_ne, ne_eq]
      omega
    rw [this]
    simp
  · have hB : afterBackfill p = p := by unfold afterBackfill; rw [if_neg hb]
    rw [hB]
    exact Bool.eq_false_iff.mpr hb

theorem afterBackfill_idem (p : PyDict) :
    afterBackfill (afterBackfill p) = afterBackfill p := by
  show (if backfillCond (afterBackfill p) then _ else afterBackfill p) = afterBackfill p
  rw [backfillCond_afterBackfill]
  rfl

theorem numChildrenOf_afterBackfill (p : PyDict) :
    numChildrenOf (afterBackfill p) = numChildrenOf p := by
  unfold numChildrenOf
  rw [backfillCond_afterBackfill, rawChildrenOf_afterBackfill]
  rfl

theorem lmpRememberedOf_afterBackfill (p : PyDict) :
    lmpRememberedOf (afterBackfill p) = lmpRememberedOf p := by
  unfold lmpRememberedOf
  rw [afterBackfill_idem]

theorem trimesterOf_afterBackfill (p : PyDict) :
    trimesterOf (afterBackfill p) = trimesterOf p := by
  unfold trimesterOf
  rw [afterBackfill_idem]

theorem hasTwinsOf_afterBackfill (p : PyDict) :
    hasTwinsOf (afterBackfill p) = hasTwinsOf p := by
  unfold hasTwinsOf
  rw [afterBackfill_idem]

theorem skipObstetricOf_afterBackfill (p : PyDict) :
    skipObstetricOf (afterBackfill p) = skipObstetricOf p := by
  unfold skipObstetricOf
  rw [firstPregnancyOf_afterBackfill, numChildrenOf_afterBackfill]

theorem useSingleChildOf_afterBackfill (p : PyDict) :
    useSingleChildOf (afterBackfill p) = useSingleChildOf p := by
  unfold useSingleChildOf
  rw [numChildrenOf_afterBackfill]

theorem useMultipleChildrenOf_afterBackfill (p : PyDict) :
    useMultipleChildrenOf (afterBackfill p) = useMultipleChildrenOf p := by
  unfold useMultipleChildrenOf
  rw [numChildrenOf_afterBackfill]

theorem bloodTestAnswerOf_afterBackfill (p : PyDict) :
    bloodTestAnswerOf (afterBackfill p) = bloodTestAnswerOf p := by
  unfold bloodTestAnswerOf
  rw [currentPregnancyOf_afterBackfill]

theorem bloodTestAnsweredOf_afterBackfill (p : PyDict) :
    bloodTestAnsweredOf (afterBackfill p) = bloodTestAnsweredOf p := by
  unfold bloodTestAnsweredOf
  rw [bloodTestAnswerOf_afterBackfill]

theorem q21SkipOf_afterBackfill (p : PyDict) :
    q21SkipOf (afterBackfill p) = q21SkipOf p := by
  unfold q21SkipOf
  rw [currentPregnancyOf_afterBackfill]

theorem singleChildOf_afterBackfill (p : PyDict) :
    singleChildOf (afterBackfill p) = singleChildOf p := by
  unfold singleChildOf
  rw [afterBackfill_idem]

theorem multipleChildrenOf_afterBackfill (p : PyDict) :
    multipleChildrenOf (afterBackfill p) = multipleChildrenOf p := by
  unfold multipleChildrenOf
  rw [afterBackfill_idem]

theorem q29SkipOf_afterBackfill (p : PyDict) :
    q29SkipOf (afterBackfill p) = q29SkipOf p := by
  unfold q29SkipOf
  rw [singleChildOf_afterBackfill]

theorem q30SkipOf_afterBackfill (p : PyDict) :
    q30SkipOf (afterBackfill p) = q30SkipOf p := by
  unfold q30SkipOf
  rw [singleChildOf_afterBackfill]

theorem q39SkipOf_afterBackfill (p : PyDict) :
    q39SkipOf (afterBackfill p) = q39SkipOf p := by
  unfold q39SkipOf
  rw [multipleChildrenOf_afterBackfill]

theorem q40SkipOf_afterBackfill (p : PyDict) :
    q40SkipOf (afterBackfill p) = q40SkipOf p := by
  unfold q40SkipOf
  rw [multipleChildrenOf_afterBackfill]

/-- The record left behind by one resolver call is judged exactly as the
original record by the eligibility test: the backfill write only materializes
the `number_of_children` value the first call already used. -/
theorem eligibleQuestion_afterBackfill (p : PyDict) (q : Question) :
    eligibleQuestion (afterBackfill p) q = eligibleQuestion p q := by
  unfold eligibleQuestion
  rw [is2ndOrMoreOf_afterBackfill, lmpRememberedOf_afterBackfill,
    skipObstetricOf_afterBackfill, useSingleChildOf_afterBackfill,
    useMultipleChildrenOf_afterBackfill, trimesterOf_afterBackfill,
    bloodTestAnsweredOf_afterBackfill, q21SkipOf_afterBackfill,
    hasTwinsOf_afterBackfill, q29SkipOf_afterBackfill, q30SkipOf_afterBackfill,
    q39SkipOf_afterBackfill, q40SkipOf_afterBackfill]

theorem scanList_congr (p₁ p₂ : PyDict)
    (h : ∀ q, eligibleQuestion p₁ q = eligibleQuestion p₂ q) :
    ∀ (qs : List Question) (i : Nat), scanList p₁ qs i = scanList p₂ qs i := by
  intro qs
  induction qs with
  | nil => intro i; rfl
  | cons q rest ih =>
    intro i
    show (if eligibleQuestion p₁ q then i else scanList p₁ rest (i + 1)) = _
    rw [h q, ih (i + 1)]
    rfl

/-- C1.  For every patient record and every start index, calling
`_get_next_valid_question_index` twice from the same start index — the second
call running on the record exactly as the first call left it — returns the same
index both times. -/
theorem nextValidQuestionIndex_idempotent (start : Nat) (p : PyDict) :
    (getNextValidQuestionIndex start ((getNextValidQuestionIndex start p).2)).1 =
      (getNextValidQuestionIndex start p).1 := by
  exact scanList_congr _ _ (fun q => eligibleQuestion_afterBackfill p q)
    (questions.drop start) start

/-- A record on which the resolver's `number_of_children` backfill fires:
third pregnancy recorded, `number_of_children` still at its initial `0`. -/
def pMut : PyDict :=
  [("demographics", PyVal.dict
    [("pregnancy_number", PyVal.str "3"), ("number_of_children", PyVal.int 0)])]

/-- C3 (counterexample).  `_get_next_valid_question_index` is not side-effect
free: on `pMut` the call rewrites `demographics.number_of_children` from `0` to
`2` in the patient record. -/
theorem resolver_mutates_number_of_children_counterexample :
    dGet (demographicsOf pMut) "number_of_children" PyVal.none = PyVal.int 0 ∧
    dGet (demographicsOf ((getNextValidQuestionIndex 0 pMut).2))
        "number_of_children" PyVal.none = PyVal.int 2 ∧
    PyVal.int 0 ≠ PyVal.int 2 := by
  refine ⟨rfl, rfl, ?_⟩
  intro h
  simp at h

/-- C3 (amended).  The resolver's only side effect is the `number_of_children`
backfill: the returned record agrees with the input on every top-level key
other than `demographics`, and its `demographics` agrees with the input's on
every key other than `number_of_children`. -/
theorem resolver_frame_only_number_of_children (start : Nat) (p : PyDict)
    (k k' : String) (dflt dflt' : PyVal) :
    (k ≠ "demographics" →
      dGet ((getNextValidQuestionIndex start p).2) k dflt = dGet p k dflt) ∧
    (k' ≠ "number_of_children" →
      dGet (demographicsOf ((getNextValidQuestionIndex start p).2)) k' dflt' =
        dGet (demographicsOf p) k' dflt') := by
  constructor
  · intro hk
    exact afterBackfill_dGet_ne p k dflt hk
  · intro hk
    show dGet (demographicsOf (afterBackfill p)) k' dflt' = _
    rw [demographicsOf_afterBackfill]
    split
    · exact dGet_dSet_ne _ _ _ _ _ (Ne.symm hk)
    · rfl

/-- Witness for `resolver_frame_only_number_of_children` at the concrete
record `pMut` (where the backfill does fire). -/
theorem resolver_frame_only_number_of_children_witness :
    dGet ((getNextValidQuestionIndex 0 pMut).2) "alert_level" PyVal.none =
        dGet pMut "alert_level" PyVal.none ∧
    dGet (demographicsOf ((getNextValidQuestionIndex 0 pMut).2))
        "pregnancy_number" PyVal.none =
      dGet (demographicsOf pMut) "pregnancy_number" PyVal.none := by
  exact ⟨(resolver_frame_only_number_of_children 0 pMut "alert_level"
      "pregnancy_number" PyVal.none PyVal.none).1 (by decide),
    (resolver_frame_only_number_of_children 0 pMut "alert_level"
      "pregnancy_number" PyVal.none PyVal.none).2 (by decide)⟩

/-! ## The scan returns the first eligible index, else the catalog length -/

theorem scanList_spec (p : PyDict) :
    ∀ (qs : List Question) (i : Nat), qs = questions.drop i →
      scanList p qs i = questions.length ∨
        (i ≤ scanList p qs i ∧ scanList p qs i < questions.length ∧
          eligibleQuestion p (questions.getD (scanList p qs i) qDefault) = true) := by
  intro qs
  induction qs with
  | nil => intro i _; left; rfl
  | cons q rest ih =>
    intro i h
    have hi : i < questions.length := by
      by_contra hle
      push_neg at hle
      rw [List.drop_eq_nil_of_le hle] at h
      exact absurd h (by simp)
    have hcons := List.drop_eq_getElem_cons hi
    rw [hcons] at h
    have hq : q = questions.getD i qDefault := by
      rw [List.getD_eq_getElem questions qDefault hi]
      exact (List.cons.injEq _ _ _ _ ▸ h).1
    have hrest : rest = questions.drop (i + 1) :=
      (List.cons.injEq _ _ _ _ ▸ h).2
    by_cases he : eligibleQuestion p q = true
    · right
      show i ≤ scanList p (q :: rest) i ∧ _ ∧ _
      unfold scanList
      rw [he]
      simp only [if_true]
      exact ⟨Nat.le_refl i, hi, hq ▸ he⟩
    · have he' : eligibleQuestion p q = false := Bool.eq_false_iff.mpr he
      show scanList p (q :: rest) i = _ ∨ _
      unfold scanList
      rw [he']
      simp only [Bool.false_eq_true, if_false]
      rcases ih (i + 1) hrest with h1 | ⟨h1, h2, h3⟩
      · left; exact h1
      · right; exact ⟨by omega, h2, h3⟩

theorem getNextValid_fst (start : Nat) (p : PyDict) :
    scanList p (questions.drop start) start = (getNextValidQuestionIndex start p).1 :=
  rfl

/-- C6.  The resolver's result is always either a currently-eligible question
index at or after the start index, or exactly the catalog-length sentinel; and
when no eligible question remains at or after the start index the sentinel is
returned. -/
theorem resolver_result_valid_or_sentinel (start : Nat) (p : PyDict) :
    ((getNextValidQuestionIndex start p).1 = questions.length ∨
      (start ≤ (getNextValidQuestionIndex start p).1 ∧
        (getNextValidQuestionIndex start p).1 < questions.length ∧
        eligibleQuestion p
          (questions.getD (getNextValidQuestionIndex start p).1 qDefault) = true)) ∧
    ((∀ j, start ≤ j → j < questions.length →
        eligibleQuestion p (questions.getD j qDefault) = false) →
      (getNextValidQuestionIndex start p).1 = questions.length) := by
  have hspec := scanList_spec p (questions.drop start) start rfl
  constructor
  · exact hspec
  · intro hnone
    rcases hspec with h | ⟨h1, h2, h3⟩
    · exact h
    · rw [hnone _ h1 h2] at h3
      exact absurd h3 (by simp)

/-- Witness for `resolver_result_valid_or_sentinel`: on the empty record with
the start index past the catalog, no eligible index remains and the sentinel
(the catalog length) is returned. -/
theorem resolver_result_valid_or_sentinel_witness :
    (getNextValidQuestionIndex 51 []).1 = questions.length :=
  (resolver_result_valid_or_sentinel 51 []).2
    (fun _ h1 h2 => absurd h2 (Nat.not_lt.mpr (le_trans (by decide) h1)))

/-! ## Obstetric-history gating (C4, C5) -/

/-- When `skip_obstetric_history` holds, every question of either obstetric
block (ids 25–34 and 35–43) is skipped. -/
theorem eligible_false_of_skipObstetric (p : PyDict) (q : Question)
    (hs : skipObstetricOf p = true)
    (hid : 25 ≤ q.id ∧ q.id ≤ 34 ∨ 35 ≤ q.id ∧ q.id ≤ 43) :
    eligibleQuestion p q = false := by
  unfold eligibleQuestion
  rw [if_neg (by rintro ⟨h, -⟩; omega), if_neg (by rintro ⟨h, -⟩; omega),
    if_pos ⟨hs, hid⟩]

/-- When the single-child block is selected, every multi-child question
(ids 35–43) is skipped. -/
theorem eligible_false_multi_of_single (p : PyDict) (q : Question)
    (h1 : useSingleChildOf p = true) (hid : 35 ≤ q.id ∧ q.id ≤ 43) :
    eligibleQuestion p q = false := by
  by_cases hs : skipObstetricOf p = true
  · exact eligible_false_of_skipObstetric p q hs (Or.inr hid)
  · have hs' : skipObstetricOf p = false := Bool.eq_false_iff.mpr hs
    unfold eligibleQuestion
    rw [if_neg (by rintro ⟨h, -⟩; omega), if_neg (by rintro ⟨h, -⟩; omega),
      if_neg (by rintro ⟨h, -⟩; exact hs h),
      if_pos ⟨hs', h1, hid.1, hid.2⟩]

/-- When the multi-child block is selected, every single-child question
(ids 25–34) is skipped. -/
theorem eligible_false_single_of_multi (p : PyDict) (q : Question)
    (h1 : useMultipleChildrenOf p = true) (hid : 25 ≤ q.id ∧ q.id ≤ 34) :
    eligibleQuestion p q = false := by
  by_cases hs : skipObstetricOf p = true
  · exact eligible_false_of_skipObstetric p q hs (Or.inl hid)
  · have hs' : skipObstetricOf p = false := Bool.eq_false_iff.mpr hs
    unfold eligibleQuestion
    rw [if_neg (by rintro ⟨h, -⟩; omega), if_neg (by rintro ⟨h, -⟩; omega),
      if_neg (by rintro ⟨h, -⟩; exact hs h),
      if_neg (by rintro ⟨-, -, h, h'⟩; omega),
      if_pos ⟨hs', h1, hid.1, hid.2⟩]

/-- A stored integer `number_of_children` other than `0` is used as-is: no
backfill fires and the effective child count equals the stored value. -/
theorem numChildrenOf_stored (p : PyDict) (n : Int)
    (h : dGet (demographicsOf p) "number_of_children" (PyVal.int 0) = PyVal.int n)
    (hn : n ≠ 0) : numChildrenOf p = n := by
  have hraw : rawChildrenOf p = n := by
    unfold rawChildrenOf
    rw [h]
    rfl
  have hb : backfillCond p = false := by
    unfold backfillCond
    rw [hraw]
    have : (n == (0 : Int)) = false := by simpa using hn
    rw [this]
    simp
  unfold numChildrenOf
  rw [hb, hraw]
  rfl

/-- C4.  For every record with `demographics.first_pregnancy = True` and every
start index, the resolver never returns an index whose question lies in either
obstetric-history block (ids 25–34 or 35–43). -/
theorem resolver_skips_obstetric_when_first_pregnancy (start : Nat) (p : PyDict)
    (hfp : firstPregnancyOf p = PyVal.bool true)
    (hlt : (getNextValidQuestionIndex start p).1 < questions.length) :
    ¬(25 ≤ (questions.getD (getNextValidQuestionIndex start p).1 qDefault).id ∧
        (questions.getD (getNextValidQuestionIndex start p).1 qDefault).id ≤ 34) ∧
    ¬(35 ≤ (questions.getD (getNextValidQuestionIndex start p).1 qDefault).id ∧
        (questions.getD (getNextValidQuestionIndex start p).1 qDefault).id ≤ 43) := by
  have hs : skipObstetricOf p = true := by
    unfold skipObstetricOf
    rw [hfp]
    rfl
  have hspec := scanList_spec p (questions.drop start) start rfl
  rw [getNextValid_fst] at hspec
  rcases hspec with h | ⟨-, -, h3⟩
  · omega
  · constructor
    · intro hid
      rw [eligible_false_of_skipObstetric p _ hs (Or.inl hid)] at h3
      exact absurd h3 (by simp)
    · intro hid
      rw [eligible_false_of_skipObstetric p _ hs (Or.inr hid)] at h3
      exact absurd h3 (by simp)

/-- A first-pregnancy record used to witness C4. -/
def pFirst : PyDict :=
  [("demographics", PyVal.dict [("first_pregnancy", PyVal.bool true)])]

/-- Witness for `resolver_skips_obstetric_when_first_pregnancy`: starting the
scan at index 21 (question id 25), the first-pregnancy record skips to
index 40 (question id 44), outside both obstetric blocks. -/
theorem resolver_skips_obstetric_when_first_pregnancy_witness :
    ¬(25 ≤ (questions.getD (getNextValidQuestionIndex 21 pFirst).1 qDefault).id ∧
        (questions.getD (getNextValidQuestionIndex 21 pFirst).1 qDefault).id ≤ 34) ∧
    ¬(35 ≤ (questions.getD (getNextValidQuestionIndex 21 pFirst).1 qDefault).id ∧
        (questions.getD (getNextValidQuestionIndex 21 pFirst).1 qDefault).id ≤ 43) :=
  resolver_skips_obstetric_when_first_pregnancy 21 pFirst rfl (by decide)

/-- A record with a negative stored `number_of_children` (as Python's
`int(-3)` keeps it): neither `skip_obstetric_history`, nor the single-child
selector, nor the multi-child selector fires, so both obstetric blocks are
scanned. -/
def pNeg : PyDict :=
  [("demographics", PyVal.dict [("number_of_children", PyVal.int (-3))])]

/-- C5 (counterexample).  The two obstetric blocks are not mutually exclusive
over all records: on `pNeg` the resolver returns a single-child question
(index 21, id 25) from start 21 and a multi-child question (index 31, id 35)
from start 31. -/
theorem obstetric_blocks_both_reachable_counterexample :
    numChildrenOf pNeg = -3 ∧
    (getNextValidQuestionIndex 21 pNeg).1 = 21 ∧
    (questions.getD 21 qDefault).id = 25 ∧
    (getNextValidQuestionIndex 31 pNeg).1 = 31 ∧
    (questions.getD 31 qDefault).id = 35 :=
  ⟨rfl, rfl, rfl, rfl, rfl⟩

/-- C5 (amended).  With `number_of_children` stored as the integer 1 only the
single-child block is reachable; stored as an integer ≥ 2 only the multi-child
block is reachable; and for records whose effective child count is
non-negative the two blocks are never both reachable (a negative stored count
— `pNeg` above — evades all three obstetric gates). -/
theorem obstetric_block_selection (p : PyDict) (start start₂ : Nat) :
    (dGet (demographicsOf p) "number_of_children" (PyVal.int 0) = PyVal.int 1 →
      (getNextValidQuestionIndex start p).1 < questions.length →
      ¬(35 ≤ (questions.getD (getNextValidQuestionIndex start p).1 qDefault).id ∧
          (questions.getD (getNextValidQuestionIndex start p).1 qDefault).id ≤ 43)) ∧
    (∀ n : Int, 2 ≤ n →
      dGet (demographicsOf p) "number_of_children" (PyVal.int 0) = PyVal.int n →
      (getNextValidQuestionIndex start p).1 < questions.length →
      ¬(25 ≤ (questions.getD (getNextValidQuestionIndex start p).1 qDefault).id ∧
          (questions.getD (getNextValidQuestionIndex start p).1 qDefault).id ≤ 34)) ∧
    (0 ≤ numChildrenOf p →
      (getNextValidQuestionIndex start p).1 < questions.length →
      (25 ≤ (questions.getD (getNextValidQuestionIndex start p).1 qDefault).id ∧
        (questions.getD (getNextValidQuestionIndex start p).1 qDefault).id ≤ 34) →
      (getNextValidQuestionIndex start₂ p).1 < questions.length →
      ¬(35 ≤ (questions.getD (getNextValidQuestionIndex start₂ p).1 qDefault).id ∧
          (questions.getD (getNextValidQuestionIndex start₂ p).1 qDefault).id ≤ 43)) := by
  refine ⟨?_, ?_, ?_⟩
  · intro hstore hlt hid
    have hn : numChildrenOf p = 1 := numChildrenOf_stored p 1 hstore (by omega)
    have hu : useSingleChildOf p = true := by
      unfold useSingleChildOf
      rw [hn]
      rfl
    have hspec := scanList_spec p (questions.drop start) start rfl
    rw [getNextValid_fst] at hspec
    rcases hspec with h | ⟨-, -, h3⟩
    · omega
    · rw [eligible_false_multi_of_single p _ hu hid] at h3
      exact absurd h3 (by simp)
  · intro n hn2 hstore hlt hid
    have hn : numChildrenOf p = n := numChildrenOf_stored p n hstore (by omega)
    have hu : useMultipleChildrenOf p = true := by
      unfold useMultipleChildrenOf
      rw [hn]
      simpa using hn2
    have hspec := scanList_spec p (questions.drop start) start rfl
    rw [getNextValid_fst] at hspec
    rcases hspec with h | ⟨-, -, h3⟩
    · omega
    · rw [eligible_false_single_of_multi p _ hu hid] at h3
      exact absurd h3 (by simp)
  · intro hpos hlt1 hid1 hlt2 hid2
    have hspec := scanList_spec p (questions.drop start) start rfl
    rw [getNextValid_fst] at hspec
    rcases hspec with h | ⟨-, -, h3⟩
    · omega
    have hspec₂ := scanList_spec p (questions.drop start₂) start₂ rfl
    rw [getNextValid_fst] at hspec₂
    rcases hspec₂ with h | ⟨-, -, h3'⟩
    · omega
    -- the single-child hit at `start` forces the effective count to be exactly 1
    have hns : useSingleChildOf p = true := by
      by_contra hu
      by_cases hs : skipObstetricOf p = true
      · rw [eligible_false_of_skipObstetric p _ hs (Or.inl hid1)] at h3
        exact absurd h3 (by simp)
      · by_cases hm : useMultipleChildrenOf p = true
        · rw [eligible_false_single_of_multi p _ hm hid1] at h3
          exact absurd h3 (by simp)
        · -- neither selector fires and obstetric history is not skipped:
          -- then the count is neither 0, nor 1, nor ≥ 2 — impossible when ≥ 0
          have h0 : (numChildrenOf p == (0 : Int)) = false := by
            rcases Bool.or_eq_false_iff.mp (Bool.eq_false_iff.mpr hs) with ⟨-, h⟩
            exact h
          have h1 : (numChildrenOf p == (1 : Int)) = false := by
            unfold useSingleChildOf at hu
            exact Bool.eq_false_iff.mpr hu
          have h2 : ¬ (2 ≤ numChildrenOf p) := by
            unfold useMultipleChildrenOf at hm
            simpa using hm
          have h0' : numChildrenOf p ≠ 0 := by simpa using h0
          have h1' : numChildrenOf p ≠ 1 := by simpa using h1
          omega
    rw [eligible_false_multi_of_single p _ hns hid2] at h3'
    exact absurd h3' (by simp)

/-- A one-child record used to witness C5. -/
def pOne : PyDict :=
  [("demographics", PyVal.dict [("number_of_children", PyVal.int 1)])]

/-- A two-children record used to witness C5. -/
def pTwo : PyDict :=
  [("demographics", PyVal.dict [("number_of_children", PyVal.int 2)])]

/-- Witness for `obstetric_block_selection` on concrete records: one child →
the scan from the multi block lands at id 44; two children → the scan from the
single block lands at id 35 (not in 25–34); and on the one-child record the
single-block hit at start 21 excludes any multi-block hit from start 31. -/
theorem obstetric_block_selection_witness :
    ¬(35 ≤ (questions.getD (getNextValidQuestionIndex 31 pOne).1 qDefault).id ∧
        (questions.getD (getNextValidQuestionIndex 31 pOne).1 qDefault).id ≤ 43) ∧
    ¬(25 ≤ (questions.getD (getNextValidQuestionIndex 21 pTwo).1 qDefault).id ∧
        (questions.getD (getNextValidQuestionIndex 21 pTwo).1 qDefault).id ≤ 34) ∧
    ¬(35 ≤ (questions.getD (getNextValidQuestionIndex 31 pOne).1 qDefault).id ∧
        (questions.getD (getNextValidQuestionIndex 31 pOne).1 qDefault).id ≤ 43) :=
  ⟨(obstetric_block_selection pOne 31 31).1 rfl (by decide),
   (obstetric_block_selection pTwo 21 21).2.1 2 (by decide) rfl (by decide),
   (obstetric_block_selection pOne 21 31).2.2 (by decide) (by decide)
     (by decide) (by decide)⟩

/-! ## Trimester recomputation (C2) -/

/-- Modelled from the spec: the trimester as a function of the gestational
month alone ("an id range is relevant only inside a named trimester window,
computed from gestational month"), for comparison with the source's
`_get_pregnancy_trimester`. -/
def trimesterOfMonth (m : Int) : PyVal :=
  if 1 ≤ m ∧ m ≤ 3 then PyVal.str "first"
  else if 4 ≤ m ∧ m ≤ 6 then PyVal.str "second"
  else if 7 ≤ m ∧ m ≤ 9 then PyVal.str "third"
  else PyVal.str "unknown"

theorem pyEq_str_iff (v : PyVal) (s : String) :
    pyEq v (PyVal.str s) = true ↔ v = PyVal.str s := by
  cases v <;> simp [pyEq]

/-- A record with a stale cached trimester: `trimester = "first"` was stored,
but `pregnancy_month` has since been set to 8 (third trimester). -/
def pStale : PyDict :=
  [("current_pregnancy", PyVal.dict
    [("trimester", PyVal.str "first"), ("pregnancy_month", PyVal.int 8)])]

/-- Record `pStale` without the cached trimester value: same month, trimester key
absent. -/
def pFresh : PyDict :=
  [("current_pregnancy", PyVal.dict [("pregnancy_month", PyVal.int 8)])]

/-- C2 (counterexample).  The resolver does not recompute the trimester from
the stored month: on `pStale` (month 8, cached `"first"`) it answers
`"first"`, not the month-derived `"third"`, and the scan from index 11
(question id 15) therefore skips the whole 15–24 range and the obstetric
blocks, landing at index 40 (id 44) — whereas on `pFresh`, identical except
that no trimester is cached, the month is consulted and index 11 itself is
returned. -/
theorem trimester_uses_cached_value_counterexample :
    pregnancyMonthOf pStale = 8 ∧
    trimesterOfMonth (pregnancyMonthOf pStale) = PyVal.str "third" ∧
    getPregnancyTrimester pStale = PyVal.str "first" ∧
    getPregnancyTrimester pStale ≠ trimesterOfMonth (pregnancyMonthOf pStale) ∧
    (getNextValidQuestionIndex 11 pStale).1 = 40 ∧
    (getNextValidQuestionIndex 11 pFresh).1 = 11 ∧
    (questions.getD 11 qDefault).id = 15 ∧
    (questions.getD 40 qDefault).id = 44 := by
  refine ⟨rfl, rfl, rfl, ?_, rfl, rfl, rfl, rfl⟩
  intro h
  exact absurd (show PyVal.str "first" = PyVal.str "third" from h) (by simp)

/-- C2 (amended).  `_get_pregnancy_trimester` derives the trimester from the
stored gestational month only when the cached `trimester` field reads as
`"unknown"` (its default for a missing key); whenever a trimester value is
cached it is returned as-is, even when it disagrees with `pregnancy_month`. -/
theorem getPregnancyTrimester_recomputes_only_when_unknown (p : PyDict) :
    getPregnancyTrimester p =
      if pyEq (storedTrimesterOf p) (PyVal.str "unknown") = true then
        trimesterOfMonth (pregnancyMonthOf p)
      else storedTrimesterOf p := by
  unfold getPregnancyTrimester trimesterOfMonth
  by_cases hu : pyEq (storedTrimesterOf p) (PyVal.str "unknown") = true
  · have hst : storedTrimesterOf p = PyVal.str "unknown" :=
      (pyEq_str_iff _ _).mp hu
    rw [if_pos hu]
    by_cases hm : 0 < pregnancyMonthOf p
    · rw [if_pos ⟨hu, hm⟩, hst]
    · rw [if_neg (by rintro ⟨-, h⟩; exact hm h), hst,
        if_neg (by omega), if_neg (by omega), if_neg (by omega)]
  · rw [if_neg hu, if_neg (by rintro ⟨h, -⟩; exact hu h)]

/-! ## Field-path accessors: `_save_to_field` / `_get_field_value` (C10) -/

/-- Python's `field_path.split(".")`: single-character separator split,
`""` splits to `[""]`, trailing separators yield trailing empty parts. -/
def splitDotAux : List Char → List Char → List String
  | [], acc => [String.mk acc.reverse]
  | c :: rest, acc =>
    if c = '.' then String.mk acc.reverse :: splitDotAux rest []
    else splitDotAux rest (c :: acc)

/-- Python `field_path.split(".")`. -/
def pySplitDot (s : String) : List String :=
  splitDotAux s.data []

/-- Python `current[k]` under a `k in current` guard (subscript read; the guard makes
the `.none` default unreachable as a "missing" marker — a stored `None` is
returned as `None`, exactly as in Python). -/
def dIndex (d : PyDict) (k : String) : PyVal :=
  dGet d k PyVal.none

/-- The part-list recursion of `_save_to_field` (source lines 532–548): a
single part assigns at top level; otherwise each intermediate part is created
as `\x7b\x7d` when missing and descended into.  Python would raise on an
intermediate that holds a non-dict value; the embedding descends into an empty
dict there (the round-trip claim C10 is restricted to paths whose
intermediates are absent or dicts, where both agree). -/
def setPath (d : PyDict) : List String → PyVal → PyDict
  | [], _ => d
  | [k], v => dSet d k v
  | k :: k2 :: rest, v =>
    let sub := if dMem d k then asDict (dIndex d k) else []
    dSet d k (PyVal.dict (setPath sub (k2 :: rest) v))

/-- The method `_save_to_field(patient_data, field_path, value)`. -/
def saveToField (p : PyDict) (path : String) (v : PyVal) : PyDict :=
  setPath p (pySplitDot path) v

/-- The part-list recursion of `_get_field_value` (source lines 550–568): a
single part reads with default `""`; otherwise each intermediate must be
present and a dict, else `""`; the final part reads with default `""`. -/
def getPath (d : PyDict) : List String → PyVal
  | [] => PyVal.str ""
  | [k] => dGet d k (PyVal.str "")
  | k :: k2 :: rest =>
    if dMem d k then
      match dIndex d k with
      | PyVal.dict sub => getPath sub (k2 :: rest)
      | _ => PyVal.str ""
    else PyVal.str ""

/-- The method `_get_field_value(patient_data, field_path)`. -/
def getFieldValue (p : PyDict) (path : String) : PyVal :=
  getPath p (pySplitDot path)

/-- The claim's side condition on C10: every intermediate component of the
path is absent from the record or maps to a dict. -/
def pathClear (d : PyDict) : List String → Bool
  | [] => true
  | [_] => true
  | k :: k2 :: rest =>
    if dMem d k then
      match dIndex d k with
      | PyVal.dict sub => pathClear sub (k2 :: rest)
      | _ => false
    else true

/-- Is the value a dict? (the claim's "non-dictionary value v"). -/
def isDictVal : PyVal → Bool
  | .dict _ => true
  | _ => false

/-! ## Visit archiving: `_archive_current_visit` (C7) -/

/-- The idiom `.copy() if isinstance(v, dict) else \x7b\x7d` (shallow copy is identity in
the immutable embedding). -/
def copyIfDict (v : PyVal) : PyVal :=
  match v with
  | .dict d => .dict d
  | _ => .dict []

/-- The idiom `.copy() if isinstance(v, list) else []`. -/
def copyIfList (v : PyVal) : PyVal :=
  match v with
  | .list l => .list l
  | _ => .list []

/-- Reading `v.get("visit_number")` on a history entry.  Python would raise
`AttributeError` on a non-dict entry mid-scan; the embedding reads `None`
(which matches no visit number), agreeing with Python on any record whose
history entries are dicts — in particular on everything this program
archives. -/
def entryVisitNumber (v : PyVal) : PyVal :=
  match v with
  | .dict d => dGet d "visit_number" PyVal.none
  | _ => PyVal.none

/-- The `visit_data` snapshot built by `_archive_current_visit` (source lines
2530–2549); both `datetime.now().isoformat()` calls are abstracted by the
`now` parameter. -/
def visitSnapshot (now : String) (vn : PyVal) (p : PyDict) : PyDict :=
  [("visit_number", vn),
   ("visit_date", PyVal.str now),
   ("completed_at", PyVal.str now),
   ("alert_level", dGet p "alert_level" PyVal.none),
   ("assessment_summary", dGet p "assessment_summary" (PyVal.str "")),
   ("clinical_impression", dGet p "clinical_impression" (PyVal.str "")),
   ("problem_description", dGet p "problem_description" (PyVal.str "")),
   ("demographics", copyIfDict (dGet p "demographics" PyVal.none)),
   ("current_pregnancy", copyIfDict (dGet p "current_pregnancy" PyVal.none)),
   ("obstetric_history", copyIfDict (dGet p "obstetric_history" PyVal.none)),
   ("gynecological_history", copyIfDict (dGet p "gynecological_history" PyVal.none)),
   ("past_medical_history", copyIfDict (dGet p "past_medical_history" PyVal.none)),
   ("surgical_history", copyIfDict (dGet p "surgical_history" PyVal.none)),
   ("family_history", copyIfDict (dGet p "family_history" PyVal.none)),
   ("personal_history", copyIfDict (dGet p "personal_history" PyVal.none)),
   ("socio_economic", copyIfDict (dGet p "socio_economic" PyVal.none)),
   ("additional_info", dGet p "additional_info" (PyVal.str "")),
   ("conversation_history", copyIfList (dGet p "conversation_history" PyVal.none))]

/-- The already-archived check shared by `_archive_current_visit` and
`_handle_completed_phase`: some entry of `visit_history` (a non-list history is
normalized to `[]`) carries the record's current `visit_number`. -/
def archiveGuard (p : PyDict) : Bool :=
  (asList (dGet p "visit_history" (PyVal.list []))).any
    (fun v => pyEq (entryVisitNumber v) (dGet p "visit_number" (PyVal.int 1)))

/-- The method `_archive_current_visit` (source lines 2513–2560): skip if the current
`visit_number` already appears in `visit_history`, else append the snapshot
and store the history back (the source's locals `visit_number` and
`visit_history` are inlined). -/
def archiveCurrentVisit (now : String) (p : PyDict) : PyDict :=
  if archiveGuard p then p
  else
    dSet p "visit_history"
      (PyVal.list (asList (dGet p "visit_history" (PyVal.list [])) ++
        [PyVal.dict (visitSnapshot now (dGet p "visit_number" (PyVal.int 1)) p)]))

/-- The two unconditional flag writes at the top of `_handle_completed_phase`:
`assessment_complete = True`, `current_phase = "completed"`. -/
def completedFlags (p : PyDict) : PyDict :=
  dSet (dSet p "assessment_complete" (PyVal.bool true)) "current_phase"
    (PyVal.str "completed")

/-- The record mutation performed by `_handle_completed_phase` (source lines
2163–2189): force the flags, then archive the visit if its number is not yet
in the history (the handler's own existence check before calling
`_archive_current_visit`, which re-checks). -/
def completedPhaseState (now : String) (p : PyDict) : PyDict :=
  if archiveGuard (completedFlags p) then completedFlags p
  else archiveCurrentVisit now (completedFlags p)

/-- The number of entries of `visit_history` carrying visit number `n`. -/
def countVisits (n : Int) (p : PyDict) : Nat :=
  ((asList (dGet p "visit_history" (PyVal.list []))).filter
    (fun v => pyEq (entryVisitNumber v) (PyVal.int n))).length

/-! ## New visit: `_start_new_visit` (C8) -/

/-- The initializer `_initialize_patient_data` (source lines 323–426); both
`datetime.now().isoformat()` stamps are abstracted by `now`. -/
def initializePatientData (now : String) (pid : PyVal) : PyDict :=
  [("patient_id", pid),
   ("demographics", PyVal.dict
     [("name", PyVal.str ""),
      ("age", PyVal.str ""),
      ("phone_number", PyVal.str ""),
      ("marriage_info", PyVal.str ""),
      ("marriage_duration", PyVal.str ""),
      ("consanguineous_marriage", PyVal.bool false),
      ("pregnancy_number", PyVal.str ""),
      ("number_of_children", PyVal.int 0),
      ("first_pregnancy", PyVal.bool false),
      ("miscarriages_deaths", PyVal.str ""),
      ("last_menstrual_period", PyVal.str ""),
      ("last_menstrual_period_remembered", PyVal.bool false),
      ("regular_periods", PyVal.str "")]),
   ("problem_description", PyVal.str ""),
   ("detected_issue", PyVal.str ""),
   ("issue_specific_questions", PyVal.dict []),
   ("issue_specific_question_index", PyVal.int 0),
   ("issue_specific_questions_complete", PyVal.bool false),
   ("current_pregnancy", PyVal.dict
     [("pregnancy_month", PyVal.str ""),
      ("trimester", PyVal.str ""),
      ("conception_method", PyVal.str ""),
      ("discovery_method", PyVal.str ""),
      ("early_ultrasound", PyVal.bool false),
      ("folic_acid", PyVal.bool false),
      ("early_symptoms", PyVal.str ""),
      ("fetal_movement", PyVal.str ""),
      ("anatomy_scan", PyVal.bool false),
      ("regular_checkup", PyVal.bool false),
      ("blood_urine_tests", PyVal.str ""),
      ("hb_level_symptoms", PyVal.str ""),
      ("sugar_bp_tests", PyVal.str ""),
      ("sugar_bp_medication", PyVal.str ""),
      ("supplements", PyVal.bool false),
      ("bleeding_water_leakage", PyVal.str ""),
      ("recent_scan", PyVal.str ""),
      ("has_twins", PyVal.bool false)]),
   ("obstetric_history", PyVal.dict
     [("single_child", PyVal.dict
       [("age", PyVal.str ""),
        ("gender", PyVal.str ""),
        ("full_term", PyVal.str ""),
        ("delivery_method", PyVal.str ""),
        ("normal_delivery_details", PyVal.str ""),
        ("operation_reason", PyVal.str ""),
        ("delivery_location", PyVal.str ""),
        ("post_delivery_complications", PyVal.str ""),
        ("current_status", PyVal.str ""),
        ("pregnancy_complications", PyVal.str "")]),
      ("multiple_children", PyVal.dict
       [("children_info", PyVal.str ""),
        ("all_full_term", PyVal.str ""),
        ("delivery_methods", PyVal.str ""),
        ("delivery_locations", PyVal.str ""),
        ("normal_delivery_details", PyVal.str ""),
        ("operation_reasons", PyVal.str ""),
        ("post_delivery_complications", PyVal.str ""),
        ("current_status", PyVal.str ""),
        ("pregnancy_complications", PyVal.str "")])]),
   ("gynecological_history", PyVal.dict
     [("contraception", PyVal.str ""), ("pap_smear", PyVal.bool false)]),
   ("past_medical_history", PyVal.dict
     [("current_medications", PyVal.str ""), ("previous_conditions", PyVal.str "")]),
   ("surgical_history", PyVal.dict [("operations", PyVal.str "")]),
   ("family_history", PyVal.dict
     [("medical_conditions", PyVal.str ""), ("twins_history", PyVal.str "")]),
   ("personal_history", PyVal.dict
     [("allergies", PyVal.str ""),
      ("smoking_substance_use", PyVal.str ""),
      ("domestic_violence", PyVal.str ""),
      ("diet", PyVal.str "")]),
   ("socio_economic", PyVal.dict [("husband_occupation", PyVal.str "")]),
   ("additional_info", PyVal.str ""),
   ("conversation_history", PyVal.list []),
   ("current_phase", PyVal.str "onboarding"),
   ("current_question_index", PyVal.int 0),
   ("assessment_complete", PyVal.bool false),
   ("alert_level", PyVal.none),
   ("visit_number", PyVal.int 1),
   ("visit_history", PyVal.list []),
   ("created_at", PyVal.str now),
   ("updated_at", PyVal.str now)]

/-- Local `new_visit = current_visit + 1` where `current_visit` is whatever
`patient_data.get("visit_number", 1)` returns.  Python `+ 1` is defined on
ints and bools; on any other stored value it raises `TypeError` (aborting
`_start_new_visit` through its blanket `except`), which the embedding marks
with `None`. -/
def pyAddOne : PyVal → PyVal
  | .int n => .int (n + 1)
  | .bool b => .int ((if b then 1 else 0) + 1)
  | _ => PyVal.none

/-- The guarded archive step at the top of `_start_new_visit` (source lines
2566–2567): archive only when the phase is `completed` and
`assessment_complete` is truthy. -/
def startNewVisitArchiveStep (now : String) (p : PyDict) : PyDict :=
  if pyEq (dGet p "current_phase" PyVal.none) (PyVal.str "completed") = true
      ∧ truthy (dGet p "assessment_complete" (PyVal.bool false)) = true then
    archiveCurrentVisit now p
  else p

/-- Local `new_visit = patient_data.get("visit_number", 1) + 1` of
`_start_new_visit`, read after the guarded archive. -/
def snvNewVisit (now : String) (p : PyDict) : PyVal :=
  pyAddOne (dGet (startNewVisitArchiveStep now p) "visit_number" (PyVal.int 1))

/-- The record after `patient_data["visit_number"] = new_visit`
(source line 2581). -/
def snvP2 (now : String) (p : PyDict) : PyDict :=
  dSet (startNewVisitArchiveStep now p) "visit_number" (snvNewVisit now p)

/-- Local `new_patient_data = self._initialize_patient_data(
patient_data.get("patient_id", ""))` (source line 2584). -/
def snvNd0 (now : String) (p : PyDict) : PyDict :=
  initializePatientData now (dGet (snvP2 now p) "patient_id" (PyVal.str ""))

/-- The dict `new_patient_data["demographics"]` after the three preservation writes
(source lines 2587–2589); the preserved values come from the post-archive
record's `demographics` (normalized to `\x7b\x7d` when not a dict, source
lines 2570–2576). -/
def snvNdDemo (now : String) (p : PyDict) : PyDict :=
  dSet (dSet (dSet (asDict (dGet (snvNd0 now p) "demographics" (PyVal.dict [])))
    "name" (dGet (demographicsOf (startNewVisitArchiveStep now p)) "name" (PyVal.str "")))
    "age" (dGet (demographicsOf (startNewVisitArchiveStep now p)) "age" (PyVal.str "")))
    "phone_number"
    (dGet (demographicsOf (startNewVisitArchiveStep now p)) "phone_number" (PyVal.str ""))

/-- Local `new_patient_data` after all carry-over writes (source lines 2587–2596):
preserved demographics, `visit_number`, `visit_history`, and the original
`created_at` (defaulting to the fresh stamp when absent). -/
def snvNd (now : String) (p : PyDict) : PyDict :=
  dSet (dSet (dSet (dSet (snvNd0 now p) "demographics" (PyVal.dict (snvNdDemo now p)))
    "visit_number" (snvNewVisit now p))
    "visit_history" (dGet (snvP2 now p) "visit_history" (PyVal.list [])))
    "created_at" (dGet (snvP2 now p) "created_at" (PyVal.str now))

/-- The method `_start_new_visit` (source lines 2562–2613): guarded archive; preserve
name/age/phone from a dict-valued `demographics`; increment `visit_number`;
rebuild the record from `_initialize_patient_data` with the carried-over
fields; `patient_data.update(new_patient_data)` (source line 2599); then reset
the conversation state flags (source lines 2602–2606). -/
def startNewVisit (now : String) (p : PyDict) : PyDict :=
  dSet (dSet (dSet (dSet (dSet (dUpdate (snvP2 now p) (snvNd now p))
    "current_phase" (PyVal.str "onboarding"))
    "current_question_index" (PyVal.int 0))
    "assessment_complete" (PyVal.bool false))
    "alert_level" PyVal.none)
    "has_greeted" (PyVal.bool false)

/-! ## Assessment phase: `_handle_assessment_phase` (C9) -/

/-- The fallback assessment `_generate_assessment` returns on every failure
path: no JSON braces in the reply, `json.JSONDecodeError`, or any exception
from the model call (source lines 2155–2161). -/
def defaultAssessment : PyDict :=
  [("alert_level", PyVal.str "yellow"),
   ("assessment_summary",
     PyVal.str "Standard gynecological consultation - requires further evaluation"),
   ("clinical_impression", PyVal.str "Requires clinical evaluation"),
   ("recommendations", PyVal.str "Follow-up with healthcare provider recommended")]

/-- Modelling `_generate_assessment` at the collaborator boundary: `some a` models a
reply whose embedded JSON parsed to the dict `a`; `none` models every failure
path, which yields `defaultAssessment`. -/
def generateAssessment (oracle : Option PyDict) : PyDict :=
  match oracle with
  | some a => a
  | Option.none => defaultAssessment

/-- The handler `_handle_assessment_phase` (source lines 2028–2063), state effect plus
whether the assessment collaborator was invoked.  When `assessment_complete`
is already truthy the handler moves the phase to `completed` and delegates to
`_handle_completed_phase` without calling the collaborator; otherwise it calls
it once, stores `alert_level` (default `"yellow"`), marks the assessment
complete, completes the phase and stores the summary fields. -/
def handleAssessmentState (oracle : Option PyDict) (now : String) (p : PyDict) :
    PyDict × Bool :=
  if truthy (dGet p "assessment_complete" (PyVal.bool false)) then
    (completedPhaseState now (dSet p "current_phase" (PyVal.str "completed")), false)
  else
    let assessment := generateAssessment oracle
    let alert := dGet assessment "alert_level" (PyVal.str "yellow")
    let p1 := dSet p "alert_level" alert
    let p2 := dSet p1 "assessment_complete" (PyVal.bool true)
    let p3 := dSet p2 "current_phase" (PyVal.str "completed")
    let p4 := dSet p3 "assessment_summary"
      (dGet assessment "assessment_summary" (PyVal.str ""))
    let p5 := dSet p4 "clinical_impression"
      (dGet assessment "clinical_impression" (PyVal.str ""))
    (p5, true)

/-! ## More dict lemmas -/

theorem dMem_dSet_ne (d : PyDict) (k k' : String) (v : PyVal) (h : k ≠ k') :
    dMem (dSet d k v) k' = dMem d k' := by
  induction d with
  | nil => simp [dSet, dMem, h]
  | cons e rest ih =>
    by_cases he : e.1 = k
    · simp only [dSet, if_pos he, dMem]
      rw [if_neg h, if_neg (he ▸ h)]
    · simp only [dSet, if_neg he, dMem]
      by_cases he' : e.1 = k'
      · rw [if_pos he', if_pos he']
      · rw [if_neg he', if_neg he', ih]

theorem dGet_congr_of_mem (d : PyDict) (k : String) (dflt dflt' : PyVal)
    (h : dMem d k = true) : dGet d k dflt = dGet d k dflt' := by
  induction d with
  | nil => simp [dMem] at h
  | cons e rest ih =>
    by_cases he : e.1 = k
    · simp [dGet, he]
    · simp only [dMem, if_neg he] at h
      simp only [dGet, if_neg he]
      exact ih h

theorem dGet_of_not_mem (d : PyDict) (k : String) (dflt : PyVal)
    (h : dMem d k = false) : dGet d k dflt = dflt := by
  induction d with
  | nil => rfl
  | cons e rest ih =>
    by_cases he : e.1 = k
    · simp [dMem, he] at h
    · simp only [dMem, if_neg he] at h
      simp only [dGet, if_neg he]
      exact ih h

/-! ## Archiving is idempotent (C7) -/

theorem pyEq_int_refl (n : Int) : pyEq (PyVal.int n) (PyVal.int n) = true := by
  simp [pyEq]

/-- Archiving touches only `visit_history`. -/
theorem archive_dGet_ne (now : String) (p : PyDict) (k : String) (dflt : PyVal)
    (h : k ≠ "visit_history") :
    dGet (archiveCurrentVisit now p) k dflt = dGet p k dflt := by
  unfold archiveCurrentVisit
  split
  · rfl
  · exact dGet_dSet_ne p _ k _ dflt (Ne.symm h)

/-- The head binding of the snapshot is the archived visit number. -/
theorem entryVisitNumber_snapshot (now : String) (vn : PyVal) (p : PyDict) :
    entryVisitNumber (PyVal.dict (visitSnapshot now vn p)) = vn := by
  rfl

/-- After one archive call on a record with an integer visit number, the
already-archived check holds. -/
theorem archiveGuard_after_archive (now : String) (p : PyDict) (N : Int)
    (hvn : dGet p "visit_number" (PyVal.int 1) = PyVal.int N) :
    archiveGuard (archiveCurrentVisit now p) = true := by
  unfold archiveCurrentVisit
  split <;> rename_i hg
  · exact hg
  · unfold archiveGuard
    rw [dGet_dSet_same, dGet_dSet_ne _ _ _ _ _ (by decide), hvn]
    show List.any (_ ++ [PyVal.dict (visitSnapshot now _ p)]) _ = true
    rw [List.any_append]
    simp only [List.any_cons, List.any_nil, entryVisitNumber_snapshot, hvn,
      pyEq_int_refl, Bool.or_true, Bool.true_or]

/-- An entry with the current visit number makes archiving a no-op. -/
theorem archive_of_guard (now : String) (p : PyDict)
    (hg : archiveGuard p = true) : archiveCurrentVisit now p = p := by
  unfold archiveCurrentVisit
  rw [hg]
  rfl

/-- C7.  Archiving a visit is idempotent on any record whose `visit_number` is
the integer `N`: a second call (directly or through the completed-phase
handler) changes nothing, a record with no history entry for `N` gains exactly
one, and a record that already has one is left untouched. -/
theorem archive_visit_idempotent (now₁ now₂ : String) (p : PyDict) (N : Int)
    (hvn : dGet p "visit_number" (PyVal.int 1) = PyVal.int N) :
    archiveCurrentVisit now₂ (archiveCurrentVisit now₁ p) = archiveCurrentVisit now₁ p ∧
    (countVisits N p = 0 → countVisits N (archiveCurrentVisit now₁ p) = 1) ∧
    (1 ≤ countVisits N p → archiveCurrentVisit now₁ p = p) ∧
    completedPhaseState now₂ (completedPhaseState now₁ p) = completedPhaseState now₁ p := by
  have hpred : ∀ v : PyVal,
      (pyEq (entryVisitNumber v) (dGet p "visit_number" (PyVal.int 1))) =
        (pyEq (entryVisitNumber v) (PyVal.int N)) := by
    intro v
    rw [hvn]
  refine ⟨archive_of_guard now₂ _ (archiveGuard_after_archive now₁ p N hvn), ?_, ?_, ?_⟩
  · intro h0
    have hg : archiveGuard p = false := by
      unfold archiveGuard
      unfold countVisits at h0
      rw [List.length_eq_zero] at h0
      rw [List.any_eq_false]
      intro v hv
      have := List.filter_eq_nil_iff.mp h0 v hv
      rw [hpred v]
      simpa using this
    unfold archiveCurrentVisit
    rw [hg]
    simp only [Bool.false_eq_true, if_false]
    unfold countVisits
    rw [dGet_dSet_same]
    show (List.filter _ (_ ++ [PyVal.dict (visitSnapshot now₁ _ p)])).length = 1
    rw [List.filter_append, List.length_append]
    unfold countVisits at h0
    rw [h0]
    simp [entryVisitNumber_snapshot, hvn, pyEq_int_refl]
  · intro h1
    apply archive_of_guard
    unfold archiveGuard
    unfold countVisits at h1
    have hlen : 0 < (List.filter (fun v => pyEq (entryVisitNumber v) (PyVal.int N))
        (asList (dGet p "visit_history" (PyVal.list [])))).length := by omega
    rcases List.exists_mem_of_length_pos hlen with ⟨v, hv⟩
    rw [List.any_eq_true]
    exact ⟨v, (List.mem_filter.mp hv).1, by
      rw [hpred v]
      exact (List.mem_filter.mp hv).2⟩
  · -- the completed-phase handler: flags are idempotent and the archive is guarded
    have hq : dGet (completedFlags p) "visit_number" (PyVal.int 1) = PyVal.int N := by
      unfold completedFlags
      rw [dGet_dSet_ne _ _ _ _ _ (by decide), dGet_dSet_ne _ _ _ _ _ (by decide), hvn]
    have hflagsR : ∀ R : PyDict,
        (R = completedFlags p ∨ R = archiveCurrentVisit now₁ (completedFlags p)) →
        completedFlags R = R := by
      rintro R (hR | hR) <;> subst hR
      · have hac : dGet (completedFlags p) "assessment_complete" PyVal.none =
            PyVal.bool true := by
          unfold completedFlags
          rw [dGet_dSet_ne _ _ _ _ _ (by decide), dGet_dSet_same]
        have hmac : dMem (completedFlags p) "assessment_complete" = true := by
          unfold completedFlags
          rw [dMem_dSet_ne _ _ _ _ (by decide)]
          exact dMem_dSet_same _ _ _
        show dSet (dSet (completedFlags p) "assessment_complete" (PyVal.bool true))
            "current_phase" (PyVal.str "completed") = completedFlags p
        rw [dSet_self _ _ _ hmac hac]
        apply dSet_self
        · show dMem (completedFlags p) "current_phase" = true
          unfold completedFlags
          exact dMem_dSet_same _ _ _
        · show dGet (completedFlags p) "current_phase" PyVal.none = PyVal.str "completed"
          unfold completedFlags
          exact dGet_dSet_same _ _ _ _
      · have hac : dGet (archiveCurrentVisit now₁ (completedFlags p))
            "assessment_complete" PyVal.none = PyVal.bool true := by
          rw [archive_dGet_ne _ _ _ _ (by decide)]
          unfold completedFlags
          rw [dGet_dSet_ne _ _ _ _ _ (by decide), dGet_dSet_same]
        have hmac : dMem (archiveCurrentVisit now₁ (completedFlags p))
            "assessment_complete" = true := by
          unfold archiveCurrentVisit
          split
          · unfold completedFlags
            rw [dMem_dSet_ne _ _ _ _ (by decide)]
            exact dMem_dSet_same _ _ _
          · rw [dMem_dSet_ne _ _ _ _ (by decide)]
            unfold completedFlags
            rw [dMem_dSet_ne _ _ _ _ (by decide)]
            exact dMem_dSet_same _ _ _
        have hcp : dGet (archiveCurrentVisit now₁ (completedFlags p))
            "current_phase" PyVal.none = PyVal.str "completed" := by
          rw [archive_dGet_ne _ _ _ _ (by decide)]
          unfold completedFlags
          rw [dGet_dSet_same]
        have hmcp : dMem (archiveCurrentVisit now₁ (completedFlags p))
            "current_phase" = true := by
          unfold archiveCurrentVisit
          split
          · unfold completedFlags
            exact dMem_dSet_same _ _ _
          · rw [dMem_dSet_ne _ _ _ _ (by decide)]
            unfold completedFlags
            exact dMem_dSet_same _ _ _
        show dSet (dSet (archiveCurrentVisit now₁ (completedFlags p))
            "assessment_complete" (PyVal.bool true)) "current_phase"
            (PyVal.str "completed") = archiveCurrentVisit now₁ (completedFlags p)
        rw [dSet_self _ _ _ hmac hac]
        exact dSet_self _ _ _ hmcp hcp
    unfold completedPhaseState
    split <;> rename_i hg
    · rw [hflagsR _ (Or.inl rfl), hg]
      rfl
    · rw [hflagsR _ (Or.inr rfl),
        archiveGuard_after_archive now₁ (completedFlags p) N hq]
      rfl

/-- A minimal completed record used to witness C7. -/
def pVisit : PyDict := [("visit_number", PyVal.int 1)]

/-- Witness for `archive_visit_idempotent` at a concrete record: one archive
call creates the single entry for visit 1, the second changes nothing. -/
theorem archive_visit_idempotent_witness :
    archiveCurrentVisit "b" (archiveCurrentVisit "a" pVisit) =
        archiveCurrentVisit "a" pVisit ∧
    countVisits 1 (archiveCurrentVisit "a" pVisit) = 1 :=
  ⟨(archive_visit_idempotent "a" "b" pVisit 1 rfl).1,
   (archive_visit_idempotent "a" "b" pVisit 1 rfl).2.1 rfl⟩

/-! ## Assessment runs once and always leaves an alert level (C9) -/

/-- The completed-phase handler never touches `alert_level` (it only writes
the two flags and, possibly, `visit_history`). -/
theorem completedPhaseState_dGet_alert (now : String) (p : PyDict) :
    dGet (completedPhaseState now p) "alert_level" PyVal.none =
      dGet p "alert_level" PyVal.none := by
  have hflags : dGet (completedFlags p) "alert_level" PyVal.none =
      dGet p "alert_level" PyVal.none := by
    unfold completedFlags
    rw [dGet_dSet_ne _ _ _ _ _ (by decide), dGet_dSet_ne _ _ _ _ _ (by decide)]
  unfold completedPhaseState
  split
  · exact hflags
  · rw [archive_dGet_ne _ _ _ _ (by decide)]
    exact hflags

/-- C9.  With `assessment_complete` already truthy, re-entering the assessment
phase neither invokes the assessment collaborator nor changes `alert_level`;
when the assessment does run the collaborator is invoked once and, provided a
successful collaborator reply carries one of the three alert levels (its
interface contract — failures need no assumption and default to `"yellow"`),
the stored `alert_level` is one of `"red"`, `"yellow"`, `"green"`. -/
theorem assessment_once_and_alert_levels (oracle : Option PyDict) (now : String)
    (p : PyDict) :
    (truthy (dGet p "assessment_complete" (PyVal.bool false)) = true →
      (handleAssessmentState oracle now p).2 = false ∧
      dGet (handleAssessmentState oracle now p).1 "alert_level" PyVal.none =
        dGet p "alert_level" PyVal.none) ∧
    (truthy (dGet p "assessment_complete" (PyVal.bool false)) = false →
      ((∀ a, oracle = some a →
          dGet a "alert_level" (PyVal.str "yellow") = PyVal.str "red" ∨
          dGet a "alert_level" (PyVal.str "yellow") = PyVal.str "yellow" ∨
          dGet a "alert_level" (PyVal.str "yellow") = PyVal.str "green") →
        (dGet (handleAssessmentState oracle now p).1 "alert_level" PyVal.none =
            PyVal.str "red" ∨
         dGet (handleAssessmentState oracle now p).1 "alert_level" PyVal.none =
            PyVal.str "yellow" ∨
         dGet (handleAssessmentState oracle now p).1 "alert_level" PyVal.none =
            PyVal.str "green")) ∧
      (handleAssessmentState oracle now p).2 = true) := by
  constructor
  · intro h
    unfold handleAssessmentState
    rw [h]
    simp only [if_true]
    refine ⟨by trivial, ?_⟩
    rw [completedPhaseState_dGet_alert, dGet_dSet_ne _ _ _ _ _ (by decide)]
  · intro h
    unfold handleAssessmentState
    rw [h]
    simp only [Bool.false_eq_true, if_false]
    refine ⟨?_, by trivial⟩
    intro hport
    have halert : dGet
        (dSet (dSet (dSet (dSet (dSet p "alert_level"
          (dGet (generateAssessment oracle) "alert_level" (PyVal.str "yellow")))
          "assessment_complete" (PyVal.bool true)) "current_phase"
          (PyVal.str "completed")) "assessment_summary"
          (dGet (generateAssessment oracle) "assessment_summary" (PyVal.str "")))
          "clinical_impression"
          (dGet (generateAssessment oracle) "clinical_impression" (PyVal.str "")))
        "alert_level" PyVal.none =
        dGet (generateAssessment oracle) "alert_level" (PyVal.str "yellow") := by
      rw [dGet_dSet_ne _ _ _ _ _ (by decide), dGet_dSet_ne _ _ _ _ _ (by decide),
        dGet_dSet_ne _ _ _ _ _ (by decide), dGet_dSet_ne _ _ _ _ _ (by decide),
        dGet_dSet_same]
    show dGet (dSet (dSet (dSet (dSet (dSet p "alert_level" _) _ _) _ _) _ _) _ _)
        "alert_level" PyVal.none = _ ∨ _ ∨ _
    rw [halert]
    cases oracle with
    | none => right; left; rfl
    | some a => exact hport a rfl

/-- A record whose assessment already ran, used to witness C9. -/
def pDone : PyDict :=
  [("assessment_complete", PyVal.bool true), ("alert_level", PyVal.str "red"),
   ("visit_number", PyVal.int 1)]

/-- Witness for `assessment_once_and_alert_levels` at concrete records: on
`pDone` the collaborator is not re-invoked and the red alert survives; on the
fresh empty record with a failing collaborator the default yellow alert is
stored and the collaborator was invoked. -/
theorem assessment_once_and_alert_levels_witness :
    ((handleAssessmentState Option.none "t" pDone).2 = false ∧
      dGet (handleAssessmentState Option.none "t" pDone).1 "alert_level" PyVal.none =
        dGet pDone "alert_level" PyVal.none) ∧
    (dGet (handleAssessmentState Option.none "t" []).1 "alert_level" PyVal.none =
        PyVal.str "red" ∨
     dGet (handleAssessmentState Option.none "t" []).1 "alert_level" PyVal.none =
        PyVal.str "yellow" ∨
     dGet (handleAssessmentState Option.none "t" []).1 "alert_level" PyVal.none =
        PyVal.str "green") ∧
    (handleAssessmentState Option.none "t" []).2 = true :=
  ⟨(assessment_once_and_alert_levels Option.none "t" pDone).1 rfl,
   ((assessment_once_and_alert_levels Option.none "t" []).2 rfl).1
     (fun _ ha => nomatch ha),
   ((assessment_once_and_alert_levels Option.none "t" []).2 rfl).2⟩

/-! ## Field-path round trip (C10) -/

theorem splitDotAux_ne_nil : ∀ (l acc : List Char), splitDotAux l acc ≠ [] := by
  intro l
  induction l with
  | nil => intro acc; simp [splitDotAux]
  | cons c rest ih =>
    intro acc
    unfold splitDotAux
    split
    · simp
    · exact ih _

theorem pySplitDot_ne_nil (s : String) : pySplitDot s ≠ [] :=
  splitDotAux_ne_nil s.data []

/-- Writing along a part list and reading back along the same part list
returns the written value. -/
theorem getPath_setPath (v : PyVal) :
    ∀ (parts : List String) (d : PyDict), parts ≠ [] →
      getPath (setPath d parts v) parts = v := by
  intro parts
  induction parts with
  | nil => intro d h; exact absurd rfl h
  | cons k rest ih =>
    intro d _
    cases rest with
    | nil =>
      show dGet (dSet d k v) k (PyVal.str "") = v
      exact dGet_dSet_same d k v _
    | cons k2 rest2 =>
      show getPath (dSet d k (PyVal.dict (setPath _ (k2 :: rest2) v)))
        (k :: k2 :: rest2) = v
      unfold getPath
      rw [if_pos (dMem_dSet_same d k _)]
      have hidx : dIndex (dSet d k (PyVal.dict (setPath
          (if dMem d k then asDict (dIndex d k) else []) (k2 :: rest2) v))) k =
          PyVal.dict (setPath (if dMem d k then asDict (dIndex d k) else [])
            (k2 :: rest2) v) :=
        dGet_dSet_same d k _ _
      rw [hidx]
      exact ih _ (by simp)

/-- C10.  For every record, every dotted path whose intermediate components
are absent or map to dicts, and every non-dict value `v`, a
`_save_to_field` followed by `_get_field_value` along the same path returns
exactly `v`. -/
theorem save_get_roundtrip (p : PyDict) (path : String) (v : PyVal)
    (_hclear : pathClear p (pySplitDot path) = true)
    (_hv : isDictVal v = false) :
    getFieldValue (saveToField p path v) path = v :=
  getPath_setPath v (pySplitDot path) p (pySplitDot_ne_nil path)

/-- Witness for `save_get_roundtrip` at a concrete record and path. -/
theorem save_get_roundtrip_witness :
    getFieldValue (saveToField [] "demographics.name" (PyVal.str "Amina"))
      "demographics.name" = PyVal.str "Amina" :=
  save_get_roundtrip [] "demographics.name" (PyVal.str "Amina") rfl rfl

/-! ## `dict.update` lookup lemmas (for C8) -/

/-- Last binding of `k` in a dict fragment, threading an accumulator (the
last-write-wins view of `dict.update`). -/
def lookupLastAux (k : String) : PyDict → Option PyVal → Option PyVal
  | [], acc => acc
  | e :: rest, acc => lookupLastAux k rest (if e.1 = k then some e.2 else acc)

theorem lookupLastAux_acc (k : String) :
    ∀ (l : PyDict) (acc : Option PyVal),
      lookupLastAux k l acc =
        match lookupLastAux k l Option.none with
        | some v => some v
        | Option.none => acc := by
  intro l
  induction l with
  | nil => intro acc; rfl
  | cons e rest ih =>
    intro acc
    show lookupLastAux k rest _ = _
    rw [ih (if e.1 = k then some e.2 else acc),
      show lookupLastAux k (e :: rest) Option.none =
        lookupLastAux k rest (if e.1 = k then some e.2 else Option.none) from rfl,
      ih (if e.1 = k then some e.2 else Option.none)]
    rcases lookupLastAux k rest Option.none with - | v
    · by_cases he : e.1 = k
      · rw [if_pos he, if_pos he]
      · rw [if_neg he, if_neg he]
    · rfl

/-- Reading through `dict.update`: the updating dict's last binding wins, else
the original binding. -/
theorem dGet_dUpdate (k : String) (dflt : PyVal) :
    ∀ (other d : PyDict),
      dGet (dUpdate d other) k dflt =
        match lookupLastAux k other Option.none with
        | some v => v
        | Option.none => dGet d k dflt := by
  intro other
  induction other with
  | nil => intro d; rfl
  | cons e rest ih =>
    intro d
    show dGet (dUpdate (dSet d e.1 e.2) rest) k dflt = _
    rw [ih (dSet d e.1 e.2),
      show lookupLastAux k (e :: rest) Option.none =
        lookupLastAux k rest (if e.1 = k then some e.2 else Option.none) from rfl,
      lookupLastAux_acc k rest (if e.1 = k then some e.2 else Option.none)]
    rcases lookupLastAux k rest Option.none with - | v
    · by_cases he : e.1 = k
      · subst he
        rw [if_pos rfl]
        exact dGet_dSet_same d e.1 e.2 dflt
      · rw [if_neg he]
        exact dGet_dSet_ne d e.1 k e.2 dflt he
    · rfl

theorem dMem_dSet_mono (d : PyDict) (k k' : String) (v : PyVal)
    (h : dMem d k = true) : dMem (dSet d k' v) k = true := by
  by_cases he : k' = k
  · subst he; exact dMem_dSet_same d k' v
  · rw [dMem_dSet_ne d k' k v he]; exact h

theorem dMem_dUpdate_left (k : String) :
    ∀ (other d : PyDict), dMem d k = true → dMem (dUpdate d other) k = true := by
  intro other
  induction other with
  | nil => intro d h; exact h
  | cons e rest ih =>
    intro d h
    exact ih (dSet d e.1 e.2) (dMem_dSet_mono d k e.1 e.2 h)

theorem dMem_dUpdate_right (k : String) :
    ∀ (other d : PyDict), dMem other k = true → dMem (dUpdate d other) k = true := by
  intro other
  induction other with
  | nil => intro d h; simp [dMem] at h
  | cons e rest ih =>
    intro d h
    by_cases he : e.1 = k
    · exact dMem_dUpdate_left k rest (dSet d e.1 e.2)
        (he ▸ dMem_dSet_same d e.1 e.2)
    · simp only [dMem, if_neg he] at h
      exact ih (dSet d e.1 e.2) h

/-! ## New visit resets state, preserves identity (C8) -/

/-- The guarded archive at the top of `_start_new_visit` touches only
`visit_history`. -/
theorem startNewVisitArchiveStep_dGet_ne (now : String) (p : PyDict)
    (k : String) (dflt : PyVal) (h : k ≠ "visit_history") :
    dGet (startNewVisitArchiveStep now p) k dflt = dGet p k dflt := by
  unfold startNewVisitArchiveStep
  split
  · exact archive_dGet_ne now p k dflt h
  · rfl

theorem demographicsOf_archiveStep (now : String) (p : PyDict) :
    demographicsOf (startNewVisitArchiveStep now p) = demographicsOf p := by
  unfold demographicsOf
  rw [startNewVisitArchiveStep_dGet_ne now p _ _ (by decide)]

/-- Reading a two-component `demographics.k` path is reading `k` in the
(dict-normalized) `demographics` slot. -/
theorem getPath_demo (p : PyDict) (k : String) :
    getPath p ["demographics", k] = dGet (demographicsOf p) k (PyVal.str "") := by
  unfold getPath demographicsOf
  by_cases hm : dMem p "demographics" = true
  · rw [if_pos hm,
      show dIndex p "demographics" = dGet p "demographics" (PyVal.dict []) from
        dGet_congr_of_mem p _ PyVal.none (PyVal.dict []) hm]
    cases hv : dGet p "demographics" (PyVal.dict []) <;> simp [asDict, dGet, getPath]
  · have hm' : dMem p "demographics" = false := Bool.eq_false_iff.mpr hm
    rw [if_neg hm, dGet_of_not_mem p _ _ hm']
    rfl

/-- A freshly completed record whose visit was not yet archived (the normal
state right after `_handle_assessment_phase` ran). -/
def pCompleted : PyDict :=
  [("current_phase", PyVal.str "completed"),
   ("assessment_complete", PyVal.bool true),
   ("visit_number", PyVal.int 1),
   ("visit_history", PyVal.list []),
   ("demographics", PyVal.dict [("name", PyVal.str "Amina")]),
   ("created_at", PyVal.str "T0")]

/-- C8 (counterexample).  `_start_new_visit` does not leave `visit_history`
unchanged on every completed record: on `pCompleted` (completed, assessment
done, nothing archived yet) the history grows from zero entries to one,
because the completed visit is archived before the reset. -/
theorem startNewVisit_archives_into_history_counterexample :
    (asList (dGet pCompleted "visit_history" PyVal.none)).length = 0 ∧
    (asList (dGet (startNewVisit "T1" pCompleted) "visit_history" PyVal.none)).length = 1 ∧
    (0 : Nat) ≠ 1 :=
  ⟨rfl, rfl, by decide⟩

/-- C8 (amended).  On a completed record with integer visit number `n` and a
string `created_at`, `_start_new_visit` increments `visit_number` to `n + 1`,
preserves the identity fields `demographics.name` / `.age` / `.phone_number`
and the original `created_at`, resets the interview-scoped fields to their
initial empty values, and carries `visit_history` over from the guarded
archive step — unchanged except when that step first archives the
just-completed, not-yet-archived visit into it. -/
theorem startNewVisit_resets_and_preserves (now : String) (p : PyDict)
    (n : Int) (c : String)
    (_hph : dGet p "current_phase" PyVal.none = PyVal.str "completed")
    (hvn : dGet p "visit_number" (PyVal.int 1) = PyVal.int n)
    (hca : dGet p "created_at" PyVal.none = PyVal.str c) :
    dGet (startNewVisit now p) "visit_number" PyVal.none = PyVal.int (n + 1) ∧
    getFieldValue (startNewVisit now p) "demographics.name" =
      getFieldValue p "demographics.name" ∧
    getFieldValue (startNewVisit now p) "demographics.age" =
      getFieldValue p "demographics.age" ∧
    getFieldValue (startNewVisit now p) "demographics.phone_number" =
      getFieldValue p "demographics.phone_number" ∧
    dGet (startNewVisit now p) "created_at" PyVal.none = PyVal.str c ∧
    dGet (startNewVisit now p) "visit_history" PyVal.none =
      dGet (startNewVisitArchiveStep now p) "visit_history" (PyVal.list []) ∧
    dGet (startNewVisit now p) "current_phase" PyVal.none = PyVal.str "onboarding" ∧
    dGet (startNewVisit now p) "current_question_index" PyVal.none = PyVal.int 0 ∧
    dGet (startNewVisit now p) "assessment_complete" PyVal.none = PyVal.bool false ∧
    dGet (startNewVisit now p) "alert_level" (PyVal.str "unset") = PyVal.none ∧
    dGet (startNewVisit now p) "problem_description" PyVal.none = PyVal.str "" ∧
    dGet (startNewVisit now p) "detected_issue" PyVal.none = PyVal.str "" ∧
    dGet (startNewVisit now p) "conversation_history" PyVal.none = PyVal.list [] ∧
    dGet (startNewVisit now p) "current_pregnancy" PyVal.none =
      dGet (initializePatientData now (PyVal.str "")) "current_pregnancy" PyVal.none := by
  have hpeel : ∀ (k : String) (dflt : PyVal), k ≠ "has_greeted" → k ≠ "alert_level" →
      k ≠ "assessment_complete" → k ≠ "current_question_index" → k ≠ "current_phase" →
      dGet (startNewVisit now p) k dflt =
        dGet (dUpdate (snvP2 now p) (snvNd now p)) k dflt := by
    intro k dflt h1 h2 h3 h4 h5
    unfold startNewVisit
    rw [dGet_dSet_ne _ _ _ _ _ (Ne.symm h1), dGet_dSet_ne _ _ _ _ _ (Ne.symm h2),
      dGet_dSet_ne _ _ _ _ _ (Ne.symm h3), dGet_dSet_ne _ _ _ _ _ (Ne.symm h4),
      dGet_dSet_ne _ _ _ _ _ (Ne.symm h5)]
  refine ⟨?_, ?_, ?_, ?_, ?_, ?_, ?_, ?_, ?_, ?_, ?_, ?_, ?_, ?_⟩
  · rw [hpeel _ _ (by decide) (by decide) (by decide) (by decide) (by decide),
      dGet_dUpdate,
      show lookupLastAux "visit_number" (snvNd now p) Option.none =
        some (snvNewVisit now p) from rfl]
    show snvNewVisit now p = PyVal.int (n + 1)
    unfold snvNewVisit
    rw [startNewVisitArchiveStep_dGet_ne now p _ _ (by decide), hvn]
    rfl
  · show getPath (startNewVisit now p) ["demographics", "name"] =
      getPath p ["demographics", "name"]
    rw [getPath_demo, getPath_demo]
    have hdemo : demographicsOf (startNewVisit now p) = snvNdDemo now p := by
      unfold demographicsOf
      rw [hpeel _ _ (by decide) (by decide) (by decide) (by decide) (by decide),
        dGet_dUpdate,
        show lookupLastAux "demographics" (snvNd now p) Option.none =
          some (PyVal.dict (snvNdDemo now p)) from rfl]
      rfl
    rw [hdemo]
    unfold snvNdDemo
    rw [dGet_dSet_ne _ _ _ _ _ (by decide), dGet_dSet_ne _ _ _ _ _ (by decide),
      dGet_dSet_same, demographicsOf_archiveStep]
  · show getPath (startNewVisit now p) ["demographics", "age"] =
      getPath p ["demographics", "age"]
    rw [getPath_demo, getPath_demo]
    have hdemo : demographicsOf (startNewVisit now p) = snvNdDemo now p := by
      unfold demographicsOf
      rw [hpeel _ _ (by decide) (by decide) (by decide) (by decide) (by decide),
        dGet_dUpdate,
        show lookupLastAux "demographics" (snvNd now p) Option.none =
          some (PyVal.dict (snvNdDemo now p)) from rfl]
      rfl
    rw [hdemo]
    unfold snvNdDemo
    rw [dGet_dSet_ne _ _ _ _ _ (by decide), dGet_dSet_same,
      demographicsOf_archiveStep]
  · show getPath (startNewVisit now p) ["demographics", "phone_number"] =
      getPath p ["demographics", "phone_number"]
    rw [getPath_demo, getPath_demo]
    have hdemo : demographicsOf (startNewVisit now p) = snvNdDemo now p := by
      unfold demographicsOf
      rw [hpeel _ _ (by decide) (by decide) (by decide) (by decide) (by decide),
        dGet_dUpdate,
        show lookupLastAux "demographics" (snvNd now p) Option.none =
          some (PyVal.dict (snvNdDemo now p)) from rfl]
      rfl
    rw [hdemo]
    unfold snvNdDemo
    rw [dGet_dSet_same, demographicsOf_archiveStep]
  · rw [hpeel _ _ (by decide) (by decide) (by decide) (by decide) (by decide),
      dGet_dUpdate,
      show lookupLastAux "created_at" (snvNd now p) Option.none =
        some (dGet (snvP2 now p) "created_at" (PyVal.str now)) from rfl]
    show dGet (snvP2 now p) "created_at" (PyVal.str now) = PyVal.str c
    unfold snvP2
    rw [dGet_dSet_ne _ _ _ _ _ (by decide),
      startNewVisitArchiveStep_dGet_ne now p _ _ (by decide)]
    exact dGet_irrel_of_ne_dflt p _ _ _ _ hca (by simp)
  · rw [hpeel _ _ (by decide) (by decide) (by decide) (by decide) (by decide),
      dGet_dUpdate,
      show lookupLastAux "visit_history" (snvNd now p) Option.none =
        some (dGet (snvP2 now p) "visit_history" (PyVal.list [])) from rfl]
    show dGet (snvP2 now p) "visit_history" (PyVal.list []) = _
    unfold snvP2
    rw [dGet_dSet_ne _ _ _ _ _ (by decide)]
  · unfold startNewVisit
    rw [dGet_dSet_ne _ _ _ _ _ (by decide), dGet_dSet_ne _ _ _ _ _ (by decide),
      dGet_dSet_ne _ _ _ _ _ (by decide), dGet_dSet_ne _ _ _ _ _ (by decide),
      dGet_dSet_same]
  · unfold startNewVisit
    rw [dGet_dSet_ne _ _ _ _ _ (by decide), dGet_dSet_ne _ _ _ _ _ (by decide),
      dGet_dSet_ne _ _ _ _ _ (by decide), dGet_dSet_same]
  · unfold startNewVisit
    rw [dGet_dSet_ne _ _ _ _ _ (by decide), dGet_dSet_ne _ _ _ _ _ (by decide),
      dGet_dSet_same]
  · unfold startNewVisit
    rw [dGet_dSet_ne _ _ _ _ _ (by decide), dGet_dSet_same]
  · rw [hpeel _ _ (by decide) (by decide) (by decide) (by decide) (by decide),
      dGet_dUpdate,
      show lookupLastAux "problem_description" (snvNd now p) Option.none =
        some (PyVal.str "") from rfl]
  · rw [hpeel _ _ (by decide) (by decide) (by decide) (by decide) (by decide),
      dGet_dUpdate,
      show lookupLastAux "detected_issue" (snvNd now p) Option.none =
        some (PyVal.str "") from rfl]
  · rw [hpeel _ _ (by decide) (by decide) (by decide) (by decide) (by decide),
      dGet_dUpdate,
      show lookupLastAux "conversation_history" (snvNd now p) Option.none =
        some (PyVal.list []) from rfl]
  · rw [hpeel _ _ (by decide) (by decide) (by decide) (by decide) (by decide),
      dGet_dUpdate,
      show lookupLastAux "current_pregnancy" (snvNd now p) Option.none =
        some (dGet (initializePatientData now (PyVal.str ""))
          "current_pregnancy" PyVal.none) from rfl]

/-- Witness for `startNewVisit_resets_and_preserves` at the `pCompleted`
record. -/
theorem startNewVisit_resets_and_preserves_witness :
    dGet (startNewVisit "T1" pCompleted) "visit_number" PyVal.none = PyVal.int 2 ∧
    getFieldValue (startNewVisit "T1" pCompleted) "demographics.name" =
      getFieldValue pCompleted "demographics.name" ∧
    dGet (startNewVisit "T1" pCompleted) "created_at" PyVal.none = PyVal.str "T0" ∧
    dGet (startNewVisit "T1" pCompleted) "current_phase" PyVal.none =
      PyVal.str "onboarding" :=
  ⟨(startNewVisit_resets_and_preserves "T1" pCompleted 1 "T0" rfl rfl rfl).1,
   (startNewVisit_resets_and_preserves "T1" pCompleted 1 "T0" rfl rfl rfl).2.1,
   (startNewVisit_resets_and_preserves "T1" pCompleted 1 "T0" rfl rfl rfl).2.2.2.2.1,
   (startNewVisit_resets_and_preserves "T1" pCompleted 1 "T0" rfl rfl rfl).2.2.2.2.2.2.1⟩

end HealthAI
